import Mathlib

/-!
Verification of the lead-management backend's core logic:
the lead-scoring engine (`app/services/scoring.py`), the Grok
qualification client (`app/services/grok_client.py`), the stage-update
rule of the qualification router (`app/routers/grok.py`), and the
evaluation harness (`evals/run.py`).

Python strings are modelled as Lean `String` (operated on through their
character lists, since the core `String` functions do not reduce in the
kernel); nullable strings as `Option String`; Python float arithmetic by
exact rationals (`ℚ`); fallible code returns `Except`.
-/

namespace AiSdr

/-! ### Python string primitives (ASCII model) -/

/-- Characters Python `str.strip()` and the regex class `\s` treat as
whitespace (ASCII fragment). -/
def isPySpace (c : Char) : Bool :=
  c = ' ' || c = '\t' || c = '\n' || c = '\x0b' || c = '\x0c' || c = '\r'

/-- Python `str.strip()` with no argument: drop leading and trailing
whitespace. -/
def pyStripList (s : List Char) : List Char :=
  ((s.dropWhile isPySpace).reverse.dropWhile isPySpace).reverse

def pyStrip (s : String) : String := ⟨pyStripList s.data⟩

/-- ASCII `str.lower()` on one character. -/
def lowerChar (c : Char) : Char :=
  if 65 ≤ c.toNat ∧ c.toNat ≤ 90 then Char.ofNat (c.toNat + 32) else c

/-- Python `str.lower()` (ASCII model). -/
def pyLower (s : String) : String := ⟨s.data.map lowerChar⟩

/-- Substring occurrence on character lists: `needle` occurs in `hay`. -/
def pyInAux (n : List Char) : List Char → Bool
  | [] => n.isEmpty
  | c :: t => n.isPrefixOf (c :: t) || pyInAux n t

/-- Python `needle in hay` on strings (substring containment). -/
def pyIn (needle hay : String) : Bool := pyInAux needle.data hay.data

/-- Python `s.endswith(suffix)`. -/
def pyEndsWith (suffix s : String) : Bool :=
  suffix.data.reverse.isPrefixOf s.data.reverse

/-- Python `s.split(sep)` for a one-character separator. -/
def pySplitAux (sep : Char) (acc : List Char) : List Char → List (List Char)
  | [] => [acc.reverse]
  | c :: t =>
    if c = sep then acc.reverse :: pySplitAux sep [] t
    else pySplitAux sep (c :: acc) t

def pySplit (sep : Char) (s : String) : List String :=
  (pySplitAux sep [] s.data).map (fun l => ⟨l⟩)

/-- Python `x or ''` on an optional string: `None` and `''` both give `''`. -/
def orEmpty (v : Option String) : String :=
  match v with
  | none => ""
  | some s => s

/-- Digit character for decimal rendering. -/
def digitChar (d : Nat) : Char := Char.ofNat (48 + d)

def natDigitsAux : Nat → Nat → List Char
  | 0, _ => []
  | fuel + 1, n =>
    if n < 10 then [digitChar n]
    else natDigitsAux fuel (n / 10) ++ [digitChar (n % 10)]

/-- Decimal rendering of a natural number (Python `str(n)` for `n ≥ 0`). -/
def natRepr (n : Nat) : String := ⟨natDigitsAux (n + 1) n⟩

/-- Python `', '.join(xs)`. -/
def joinComma : List String → String
  | [] => ""
  | [x] => x
  | x :: y :: t => x ++ ", " ++ joinComma (y :: t)

/-! ### Rounding (exact-rational model of Python `round` and `%` format) -/

/-- Round-half-to-even on rationals: Python's `round` tie policy. -/
def roundHalfEven (q : ℚ) : ℤ :=
  let f := ⌊q⌋
  let r := q - f
  if r < 1 / 2 then f
  else if 1 / 2 < r then f + 1
  else if Even f then f else f + 1

/-- Python `round(q, 1)`. -/
def round1 (q : ℚ) : ℚ := (roundHalfEven (q * 10) : ℚ) / 10

/-- Python `f"{q:.1%}"` for non-negative `q`: percentage with one decimal. -/
def formatPct1 (q : ℚ) : String :=
  let n := (roundHalfEven (q * 1000)).toNat
  natRepr (n / 10) ++ "." ++ natRepr (n % 10) ++ "%"

/-! ### Data model -/

/-- A lead record, restricted to the seven fields the core logic reads
(`app/models.py`). `name`/`email` are non-nullable columns but the scoring
code still guards them, so all seven are `Option String` here
(`none` = SQL NULL / Python `None`). -/
structure Lead where
  name : Option String
  email : Option String
  company : Option String
  title : Option String
  phone : Option String
  linkedin_url : Option String
  notes : Option String
deriving Repr, DecidableEq

/-! ### Scoring engine (`app/services/scoring.py`) -/

/-- `ScoringService.DEFAULT_WEIGHTS` and any custom configuration: numeric
weights over the four factor keys. -/
structure Weights where
  data_completeness : ℚ
  title_seniority : ℚ
  company_size : ℚ
  contact_quality : ℚ
deriving Repr, DecidableEq

/-- `sum(self.weights.values())`. -/
def Weights.total (w : Weights) : ℚ :=
  w.data_completeness + w.title_seniority + w.company_size + w.contact_quality

def DEFAULT_WEIGHTS : Weights := ⟨30, 35, 20, 15⟩

/-- `ScoringService.__init__`: take the supplied weights (default if
`None`), and if they do not sum to 100 renormalize each to
`(weight / total) * 100`. -/
def initWeights (config : Option Weights) : Weights :=
  let ws := config.getD DEFAULT_WEIGHTS
  let total := ws.total
  if total = 100 then ws
  else
    ⟨ws.data_completeness / total * 100, ws.title_seniority / total * 100,
      ws.company_size / total * 100, ws.contact_quality / total * 100⟩

def ENTERPRISE_DOMAINS : List String :=
  ["microsoft.com", "google.com", "amazon.com", "apple.com", "meta.com",
   "salesforce.com", "oracle.com", "ibm.com", "cisco.com", "intel.com",
   "adobe.com", "netflix.com", "uber.com", "airbnb.com", "stripe.com"]

def ENTERPRISE_KEYWORDS : List String :=
  ["corp", "corporation", "inc", "incorporated", "ltd", "limited",
   "global", "international", "worldwide", "enterprise", "systems",
   "solutions", "technologies", "group", "holdings"]

def EXECUTIVE_TITLES : List String :=
  ["ceo", "chief executive officer", "president", "founder", "co-founder",
   "cto", "chief technology officer", "cfo", "chief financial officer",
   "cmo", "chief marketing officer", "coo", "chief operating officer",
   "vp", "vice president", "svp", "senior vice president",
   "evp", "executive vice president", "head of", "director",
   "senior director", "principal", "partner", "owner"]

def SENIOR_TITLES : List String :=
  ["manager", "senior manager", "lead", "senior lead", "team lead",
   "architect", "senior architect", "principal engineer", "staff engineer",
   "senior engineer", "senior developer", "tech lead", "engineering manager"]

/-- One scoring factor (`ScoreItem` dataclass). -/
structure ScoreItem where
  factor : String
  score : ℚ
  weight : ℚ
  reasoning : String
deriving Repr, DecidableEq

/-- The seven tracked fields, in the order `_score_data_completeness`
lists them. -/
def completenessFields (l : Lead) : List (Option String) :=
  [l.name, l.email, l.company, l.title, l.phone, l.linkedin_url, l.notes]

/-- Python truthiness-plus-strip test used by `_score_data_completeness`:
`if value and str(value).strip()`. -/
def isFilled (v : Option String) : Bool :=
  match v with
  | none => false
  | some s => !s.data.isEmpty && !(pyStripList s.data).isEmpty

def filledFields (l : Lead) : Nat := (completenessFields l).countP isFilled

/-- `ScoringService._score_data_completeness`. -/
def scoreDataCompleteness (w : Weights) (l : Lead) : ScoreItem :=
  let filled := filledFields l
  let ratio : ℚ := (filled : ℚ) / 7
  { factor := "Data Completeness"
    score := ratio * 100
    weight := w.data_completeness
    reasoning := "Profile is " ++ formatPct1 ratio ++ " complete ("
      ++ natRepr filled ++ "/" ++ natRepr 7 ++ " fields filled)" }

/-- `ScoringService._score_title_seniority`. -/
def scoreTitleSeniority (w : Weights) (l : Lead) : ScoreItem :=
  let title := orEmpty l.title
  let title_lower := pyLower title
  let sr : ℚ × String :=
    if pyStrip title = "" then (0, "No title provided")
    else if EXECUTIVE_TITLES.any (fun t => pyIn t title_lower) then
      (90, "Executive-level title: " ++ title)
    else if SENIOR_TITLES.any (fun t => pyIn t title_lower) then
      (70, "Senior-level title: " ++ title)
    else if ["analyst", "coordinator", "specialist", "associate"].any
        (fun k => pyIn k title_lower) then
      (40, "Individual contributor title: " ++ title)
    else (50, "Mid-level title: " ++ title)
  { factor := "Title Seniority", score := sr.1
    weight := w.title_seniority, reasoning := sr.2 }

/-- `email.split('@')[1].lower()` guarded by `'@' in email`
(empty string when there is no `@`, matching the code's initialization). -/
def emailDomain (email : String) : String :=
  if pyIn "@" email then pyLower ((pySplit '@' email).getD 1 "") else ""

/-- `ScoringService._score_company_size`. -/
def scoreCompanySize (w : Weights) (l : Lead) : ScoreItem :=
  let email := orEmpty l.email
  let company := orEmpty l.company
  let domain := emailDomain email
  let sr : ℚ × String :=
    if ENTERPRISE_DOMAINS.contains domain then
      (95, "Fortune 500 company domain: " ++ domain)
    else if ENTERPRISE_KEYWORDS.any (fun k => pyIn k (pyLower company)) then
      (80, "Enterprise company indicators in: " ++ company)
    else if pyEndsWith ".edu" domain then
      (60, "Educational institution: " ++ domain)
    else if pyEndsWith ".gov" domain then
      (75, "Government organization: " ++ domain)
    else if ["startup", "inc.", "llc"].any (fun k => pyIn k (pyLower company)) then
      (40, "Startup/small business indicators: " ++ company)
    else if company ≠ "" then
      (55, "Mid-size company: " ++ company)
    else (30, "No company information available")
  { factor := "Company Size", score := sr.1
    weight := w.company_size, reasoning := sr.2 }

/-! The phone regex
`^[\+]?[1]?[\s\-\.]?[\(]?[0-9]{3}[\)]?[\s\-\.]?[0-9]{3}[\s\-\.]?[0-9]{4}$`,
modelled as a backtracking matcher: each optional item maps a candidate
remainder to the list of possible remainders. -/

def isDigitCh (c : Char) : Bool := 48 ≤ c.toNat && c.toNat ≤ 57

/-- The regex class `[\s\-\.]`. -/
def sepClass (c : Char) : Bool := isPySpace c || c = '-' || c = '.'

/-- Optional single-character item `[c]?`: all ways to proceed. -/
def optChar (p : Char → Bool) (s : List Char) : List (List Char) :=
  match s with
  | [] => [[]]
  | c :: t => if p c then [t, c :: t] else [c :: t]

/-- Consume exactly `n` digits. -/
def takeDigits : Nat → List Char → Option (List Char)
  | 0, s => some s
  | _ + 1, [] => none
  | n + 1, c :: t => if isDigitCh c then takeDigits n t else none

def stepOpt (p : Char → Bool) (cands : List (List Char)) : List (List Char) :=
  (cands.map (optChar p)).flatten

def stepDigits (n : Nat) (cands : List (List Char)) : List (List Char) :=
  cands.filterMap (takeDigits n)

/-- The `$` anchor of Python `re`: end of string, or just before a final
newline. -/
def regexEnd (s : List Char) : Bool := s.isEmpty || s = ['\n']

/-- Full match of the North-American phone pattern against `s`. -/
def phoneRegexMatch (s : List Char) : Bool :=
  let c0 := [s]
  let c1 := stepOpt (fun c => c = '+') c0
  let c2 := stepOpt (fun c => c = '1') c1
  let c3 := stepOpt sepClass c2
  let c4 := stepOpt (fun c => c = '(') c3
  let c5 := stepDigits 3 c4
  let c6 := stepOpt (fun c => c = ')') c5
  let c7 := stepOpt sepClass c6
  let c8 := stepDigits 3 c7
  let c9 := stepOpt sepClass c8
  let c10 := stepDigits 4 c9
  c10.any regexEnd

/-- `phone.replace(' ', '').replace('-', '').replace('(', '').replace(')',
'').replace('.', '')`. -/
def phoneStripped (phone : String) : List Char :=
  phone.data.filter (fun c => !([' ', '-', '(', ')', '.'].contains c))

def CONSUMER_PROVIDERS : List String := ["gmail", "yahoo", "hotmail", "outlook"]

/-- `ScoringService._score_contact_quality`. -/
def scoreContactQuality (w : Weights) (l : Lead) : ScoreItem :=
  let email := orEmpty l.email
  let phone := orEmpty l.phone
  let linkedin_url := orEmpty l.linkedin_url
  let emailPart : ℚ × List String :=
    if pyIn "@" email then
      let domain := emailDomain email
      if ENTERPRISE_DOMAINS.contains domain then (40, ["enterprise email domain"])
      else if !(CONSUMER_PROVIDERS.any (fun c => pyIn c domain)) then
        (35, ["business email domain"])
      else (20, ["consumer email domain"])
    else (0, [])
  let phonePart : ℚ × List String :=
    if phone ≠ "" ∧ (pyStripList phone.data).length > 0 then
      if phoneRegexMatch (phoneStripped phone) then (30, ["properly formatted phone"])
      else (20, ["phone number provided"])
    else (0, [])
  let linkedinPart : ℚ × List String :=
    if linkedin_url ≠ "" ∧ pyIn "linkedin.com" (pyLower linkedin_url) then
      (30, ["LinkedIn profile"])
    else (0, [])
  let score := min (emailPart.1 + phonePart.1 + linkedinPart.1) 100
  let quality_factors := emailPart.2 ++ phonePart.2 ++ linkedinPart.2
  { factor := "Contact Quality"
    score := score
    weight := w.contact_quality
    reasoning :=
      if quality_factors ≠ [] then "Quality indicators: " ++ joinComma quality_factors
      else "Basic contact info only" }

/-- One row of the `breakdown` list built by `calculate_score`. -/
structure BreakdownEntry where
  factor : String
  score : ℚ
  weight : ℚ
  weighted_score : ℚ
  reasoning : String
deriving Repr, DecidableEq

/-- The `weighted_scores` mapping (factor key → weighted contribution). -/
structure FactorScores where
  data_completeness : ℚ
  title_seniority : ℚ
  company_size : ℚ
  contact_quality : ℚ
deriving Repr, DecidableEq

/-- `ScoreBreakdown` dataclass. -/
structure ScoreBreakdown where
  total_score : ℚ
  breakdown : List BreakdownEntry
  factors : FactorScores
deriving Repr, DecidableEq

/-- `ScoringService.calculate_score`, with `w` the service's
(already initialized) weights. -/
def calculateScore (w : Weights) (l : Lead) : ScoreBreakdown :=
  let completeness := scoreDataCompleteness w l
  let seniority := scoreTitleSeniority w l
  let company := scoreCompanySize w l
  let contact := scoreContactQuality w l
  let ws : FactorScores :=
    ⟨completeness.score * w.data_completeness / 100,
      seniority.score * w.title_seniority / 100,
      company.score * w.company_size / 100,
      contact.score * w.contact_quality / 100⟩
  let total :=
    ws.data_completeness + ws.title_seniority + ws.company_size + ws.contact_quality
  { total_score := round1 total
    breakdown :=
      [⟨completeness.factor, completeness.score, w.data_completeness,
          ws.data_completeness, completeness.reasoning⟩,
        ⟨seniority.factor, seniority.score, w.title_seniority,
          ws.title_seniority, seniority.reasoning⟩,
        ⟨company.factor, company.score, w.company_size,
          ws.company_size, company.reasoning⟩,
        ⟨contact.factor, contact.score, w.contact_quality,
          ws.contact_quality, contact.reasoning⟩]
    factors := ws }

/-! ### Stage update on qualification (`app/routers/grok.py`, `qualify_lead`) -/

def STAGE_HIERARCHY : List String :=
  ["New", "Qualified", "Contacted", "Meeting Scheduled", "Won", "Lost"]

/-- `stage_stages_hierarchy.index(lead.stage) if lead.stage in
stage_stages_hierarchy else 0`. -/
def stageIndex (stage : String) : ℕ :=
  if STAGE_HIERARCHY.contains stage then STAGE_HIERARCHY.indexOf stage else 0

/-- The router's stage-update step: new stage, and whether a
`stage_change` activity is logged. -/
def applyQualificationStage (verdict stage : String) : String × Bool :=
  if verdict = "qualified" ∧ stageIndex stage < 1 then ("Qualified", true)
  else (stage, false)

/-! ### Grok client retry loop (`app/services/grok_client.py`) -/

/-- Result of `_call_grok_with_retry`: the returned content or the
`last_error` wrapped into the final `GrokError` (`none` = Python `None`,
possible only with `max_retries = 0`); the `2^attempt` sleeps performed, in
order; and the number of remote-call attempts consumed. -/
structure RetryResult (α : Type) where
  result : Except (Option String) α
  waits : List ℕ
  calls : ℕ
deriving Repr

/-- The message of the `GrokError` raised when all retries fail. -/
def grokRetryMsg (lastError : Option String) : String :=
  "Max retries exceeded. Last error: "
    ++ (match lastError with | none => "None" | some e => e)

/-- The `for attempt in range(self.max_retries)` loop body, over the list
of remaining attempt indices. `oracle a` is the outcome of the remote call
on attempt `a` (the only effectful statement in the `try`). On failure
with attempts remaining it sleeps `2^attempt` and continues; on the last
attempt it breaks and the caller raises `GrokError` with the last error. -/
def retryLoop (oracle : ℕ → Except String α) :
    List ℕ → Option String → RetryResult α
  | [], lastError => ⟨.error lastError, [], 0⟩
  | a :: rest, _ =>
    match oracle a with
    | .ok v => ⟨.ok v, [], 1⟩
    | .error e =>
      match rest with
      | [] => ⟨.error (some e), [], 1⟩
      | b :: t =>
        let r := retryLoop oracle (b :: t) (some e)
        ⟨r.result, 2 ^ a :: r.waits, r.calls + 1⟩

/-- `GrokClient._call_grok_with_retry`. -/
def callGrokWithRetry (maxRetries : ℕ) (oracle : ℕ → Except String α) :
    RetryResult α :=
  retryLoop oracle (List.range maxRetries) none

/-! ### Qualification response validation (`GrokClient.qualify_lead`) -/

/-- JSON values as produced by `json.loads` (no float literals needed by
this development). -/
inductive JVal where
  | null : JVal
  | bool : Bool → JVal
  | int : ℤ → JVal
  | str : String → JVal
  | arr : List JVal → JVal
  | obj : List (String × JVal) → JVal

/-- Raw response content, together with its `json.loads` result at the
stdlib boundary: `none` models content that is not valid JSON. Top-level
JSON that is not an object is outside this model (the code indexes the
parsed value as a dict). -/
structure RawContent where
  raw : String
  parsed : Option (List (String × JVal))

def jLookup (fields : List (String × JVal)) (k : String) : Option JVal :=
  (fields.find? (fun p => p.1 = k)).map (fun p => p.2)

/-- Python `field in response_data` for a dict. -/
def hasField (fields : List (String × JVal)) (k : String) : Bool :=
  (jLookup fields k).isSome

def VALID_VERDICTS : List String := ["qualified", "not_qualified", "needs_more_info"]

def REQUIRED_QUALIFICATION_FIELDS : List String :=
  ["verdict", "confidence", "reasoning", "factors"]

/-- Python `str(n)` for integers. -/
def intRepr (n : ℤ) : String :=
  if n < 0 then "-" ++ natRepr n.natAbs else natRepr n.natAbs

/-- ASCII single quote, built by code point to keep source plain. -/
def sq : String := ⟨[Char.ofNat 39]⟩

/-- Python `repr` of a list of strings, e.g. the `{missing_fields}`
interpolation (string escaping not modelled). -/
def pyStrListRepr (xs : List String) : String :=
  "[" ++ joinComma (xs.map (fun s => sq ++ s ++ sq)) ++ "]"

/-- Python `repr()` of a JSON value (string escaping not modelled). -/
def jvalRepr : JVal → String
  | .null => "None"
  | .bool b => if b then "True" else "False"
  | .int n => intRepr n
  | .str s => sq ++ s ++ sq
  | .arr xs => "[" ++ joinComma (xs.attach.map (fun ⟨a, ha⟩ => jvalRepr a)) ++ "]"
  | .obj fs =>
    "\x7b"
      ++ joinComma (fs.attach.map (fun ⟨⟨k, v⟩, hp⟩ => sq ++ k ++ sq ++ ": " ++ jvalRepr v))
      ++ "\x7d"
decreasing_by
  · have h := List.sizeOf_lt_of_mem ha
    simp only [JVal.arr.sizeOf_spec]
    omega
  · have h := List.sizeOf_lt_of_mem hp
    simp only [Prod.mk.sizeOf_spec] at h
    simp only [JVal.obj.sizeOf_spec]
    omega

/-- Python `str()` as used by f-string interpolation: a string displays
as itself, scalars by their usual text, containers by their repr. -/
def jvalDisplay (v : JVal) : String :=
  match v with
  | .str s => s
  | .null => "None"
  | .bool b => if b then "True" else "False"
  | .int n => intRepr n
  | v => jvalRepr v

/-- Python `isinstance(x, int)` plus the value: `True`/`False` are ints
(1/0) in Python, so a JSON boolean passes the check. -/
def pyAsInt : JVal → Option ℤ
  | .int n => some n
  | .bool b => some (if b then 1 else 0)
  | _ => none

/-- `QualificationResult` dataclass: `reasoning`/`factors` are stored
without a type check, so they stay raw JSON values. -/
structure QualificationResult where
  verdict : String
  confidence : ℤ
  reasoning : JVal
  factors : JVal

/-- The parse-and-validate tail of `GrokClient.qualify_lead` (everything
after `_call_grok_with_retry` returns). Errors are `GrokError` messages. -/
def validateQualification (c : RawContent) : Except String QualificationResult :=
  match c.parsed with
  | none => .error ("Invalid JSON response from Grok: " ++ c.raw)
  | some fields =>
    let missing := REQUIRED_QUALIFICATION_FIELDS.filter (fun f => !hasField fields f)
    if missing ≠ [] then
      .error ("Missing required fields in Grok response: " ++ pyStrListRepr missing)
    else
      let verdictVal := (jLookup fields "verdict").getD .null
      let verdictOk := match verdictVal with
        | .str s => VALID_VERDICTS.contains s
        | _ => false
      if !verdictOk then
        .error ("Invalid verdict: " ++ jvalDisplay verdictVal ++ ". Must be one of "
          ++ pyStrListRepr VALID_VERDICTS)
      else
        let confidenceVal := (jLookup fields "confidence").getD .null
        match pyAsInt confidenceVal with
        | some n =>
          if ¬(0 ≤ n ∧ n ≤ 100) then
            .error ("Invalid confidence: " ++ jvalDisplay confidenceVal
              ++ ". Must be integer between 0-100")
          else
            .ok ⟨(match verdictVal with | .str s => s | _ => ""), n,
              (jLookup fields "reasoning").getD .null,
              (jLookup fields "factors").getD .null⟩
        | none =>
          .error ("Invalid confidence: " ++ jvalDisplay confidenceVal
            ++ ". Must be integer between 0-100")

/-- `GrokClient.qualify_lead` downstream of prompt construction: the retry
loop, then validation. Returns the result together with the sleeps
performed and the remote-call attempts consumed. -/
def qualifyLead (maxRetries : ℕ) (oracle : ℕ → Except String RawContent) :
    Except String QualificationResult × List ℕ × ℕ :=
  let r := callGrokWithRetry maxRetries oracle
  match r.result with
  | .error le => (.error (grokRetryMsg le), r.waits, r.calls)
  | .ok c => (validateQualification c, r.waits, r.calls)

/-! ### Evaluation harness (`evals/run.py`) -/

/-- The fixture fields `run_evaluation` reads (the full lead dict is only
forwarded to `qualify_lead`, which is abstracted by the outcome oracle). -/
structure Fixture where
  name : String
  expected_verdict : String
  confidence_min : ℤ
  confidence_max : ℤ

/-- An exception escaping `grok_client.qualify_lead`, as caught by
`run_evaluation`'s two `except` arms. -/
inductive PyErr where
  | grokError : String → PyErr
  | otherError : String → PyErr

/-- One entry of the results list. -/
structure EvalResult where
  lead_id : String
  actual_verdict : String
  expected_verdict : String
  actual_confidence : ℤ
  expected_confidence_range : ℤ × ℤ
  verdict_match : Bool
  confidence_in_range : Bool
  overall_pass : Bool
  reasoning : JVal
  schema_valid : Bool
  schema_errors : List String
  error : Option String

/-- Python truthiness of the `error` field (`None` and `''` are falsy). -/
def pyTruthyOpt (o : Option String) : Bool :=
  match o with
  | none => false
  | some s => !s.isEmpty

/-- `run_evaluation` for one fixture, given the outcome of the
`qualify_lead` call. -/
def runEvaluation (f : Fixture) (outcome : Except PyErr QualificationResult) :
    EvalResult :=
  match outcome with
  | .ok q =>
    let verdict_match := q.verdict = f.expected_verdict
    let confidence_in_range :=
      f.confidence_min ≤ q.confidence ∧ q.confidence ≤ f.confidence_max
    { lead_id := f.name
      actual_verdict := q.verdict
      expected_verdict := f.expected_verdict
      actual_confidence := q.confidence
      expected_confidence_range := (f.confidence_min, f.confidence_max)
      verdict_match := verdict_match
      confidence_in_range := confidence_in_range
      overall_pass := verdict_match && confidence_in_range
      reasoning := q.reasoning
      schema_valid := true
      schema_errors := []
      error := none }
  | .error (.grokError e) =>
    { lead_id := f.name, actual_verdict := "error"
      expected_verdict := f.expected_verdict, actual_confidence := 0
      expected_confidence_range := (f.confidence_min, f.confidence_max)
      verdict_match := false, confidence_in_range := false, overall_pass := false
      reasoning := .str ("Grok API Error: " ++ e)
      schema_valid := false, schema_errors := [e], error := some e }
  | .error (.otherError e) =>
    { lead_id := f.name, actual_verdict := "error"
      expected_verdict := f.expected_verdict, actual_confidence := 0
      expected_confidence_range := (f.confidence_min, f.confidence_max)
      verdict_match := false, confidence_in_range := false, overall_pass := false
      reasoning := .str ("Unexpected Error: " ++ e)
      schema_valid := false, schema_errors := [e], error := some e }

/-- The aggregate report of `generate_enhanced_report` (timestamp and the
constant prompt-validation stub omitted). -/
structure Report where
  total_tests : ℕ
  passed_tests : ℕ
  failed_tests : ℕ
  error_tests : ℕ
  pass_rate : ℚ
  verdict_accuracy : ℚ
  confidence_accuracy : ℚ
  schema_compliance_rate : ℚ
  total_schema_errors : ℕ
  results : List EvalResult

/-- `generate_enhanced_report`. -/
def generateEnhancedReport (results : List EvalResult) : Report :=
  let total := results.length
  let passed := results.countP (fun r => r.overall_pass)
  let failed := results.countP (fun r => !r.overall_pass && !pyTruthyOpt r.error)
  let errors := results.countP (fun r => pyTruthyOpt r.error)
  { total_tests := total
    passed_tests := passed
    failed_tests := failed
    error_tests := errors
    pass_rate := if total > 0 then (passed : ℚ) / total else 0
    verdict_accuracy :=
      if total > 0 then (results.countP (fun r => r.verdict_match) : ℚ) / total else 0
    confidence_accuracy :=
      if total > 0 then (results.countP (fun r => r.confidence_in_range) : ℚ) / total else 0
    schema_compliance_rate :=
      if total > 0 then (results.countP (fun r => r.schema_valid) : ℚ) / total else 0
    total_schema_errors := (results.map (fun r => r.schema_errors.length)).sum
    results := results }

/-- `run_all_evaluations`: each fixture is evaluated in order (the 0.5s
rate-limit sleep between calls carries no data and is not modelled);
`oracle i` is the outcome of the `qualify_lead` call for fixture `i`. -/
def runAllEvaluations (fixtures : List Fixture)
    (oracle : ℕ → Except PyErr QualificationResult) : Report :=
  generateEnhancedReport
    (fixtures.enum.map (fun p => runEvaluation p.2 (oracle p.1)))

/-! ### Prompt construction (`GrokClient._build_qualification_prompt`,
`GrokClient._build_outreach_prompt`)

Both routers and the eval harness pass a dict containing all seven lead
keys (values possibly `None`), so the `.get(key, default)` defaults are
unreachable and a key's value is interpolated through Python `str()`:
`None` renders as `"None"`. -/

/-- Interpolation of a dict value by an f-string: `str(None) = "None"`. -/
def pyStr (v : Option String) : String :=
  match v with
  | none => "None"
  | some s => s

/-- `{value if value else placeholder}`: `None` and `''` both give the
placeholder. -/
def renderTruthy (v : Option String) (placeholder : String) : String :=
  match v with
  | none => placeholder
  | some s => if s = "" then placeholder else s

def qualSeg1 : String :=
  "You are an expert sales development representative. Analyze this lead and determine if they should be qualified for our sales pipeline.\n\nLead Information:\n- Name: "

def qualSeg2 : String := "\n- Title: "

def qualSeg3 : String := "\n- Company: "

def qualSeg4 : String := "\n- Email: "

def qualSeg5 : String := "\n- Phone: "

def qualSeg6 : String := "\n- LinkedIn: "

def qualSeg7 : String := "\n- Notes: "

def qualSeg8 : String :=
  "\n\nQualification Criteria:\n- Decision-making authority (senior roles, executives)\n- Company size and potential budget\n- Professional contact quality\n- Likelihood of being interested in B2B solutions\n\nPlease respond with a JSON object containing:\n- \"verdict\": \"qualified\" | \"not_qualified\" | \"needs_more_info\"\n- \"confidence\": integer from 0-100\n- \"reasoning\": detailed explanation of your decision\n- \"factors\": array of key factors that influenced your decision\n\nExample response:\n\x7b\n    \"verdict\": \"qualified\",\n    \"confidence\": 85,\n    \"reasoning\": \"Senior technical role at enterprise company with professional contact details\",\n    \"factors\": [\"senior_title\", \"enterprise_company\", \"professional_email\"]\n\x7d\n\nRespond only with the JSON object, no additional text."

/-- The qualification prompt before the final `.strip()`: the f-string
template with the lead fields interpolated. -/
def qualPromptCore (l : Lead) : String :=
  qualSeg1 ++ pyStr l.name ++ qualSeg2 ++ pyStr l.title
    ++ qualSeg3 ++ pyStr l.company ++ qualSeg4 ++ pyStr l.email
    ++ qualSeg5 ++ renderTruthy l.phone "Not provided"
    ++ qualSeg6 ++ renderTruthy l.linkedin_url "Not provided"
    ++ qualSeg7 ++ renderTruthy l.notes "None"
    ++ qualSeg8

/-- `GrokClient._build_qualification_prompt`: the template starts and ends
with a newline, removed by `.strip()`. -/
def buildQualificationPrompt (l : Lead) : String :=
  pyStrip ("\n" ++ qualPromptCore l ++ "\n")

def outSeg1 : String :=
  "You are an expert sales development representative. Write a personalized outreach email for this lead.\n\nLead Information:\n- Name: "

def outSeg2 : String := "\n- Title: "

def outSeg3 : String := "\n- Company: "

def outSeg4 : String :=
  "\n\nEmail Guidelines:\n- Professional but friendly tone\n- Personalized to their role and company\n- Clear value proposition\n- Soft call-to-action\n- Keep it concise (under 150 words)\n- Avoid being overly salesy\n\nPlease respond with a JSON object containing:\n- \"subject\": compelling email subject line\n- \"body\": email body text\n- \"variants\": array of 2 alternative versions with different subject/body combinations\n\nExample response:\n\x7b\n    \"subject\": \"Quick question about [company]"
    ++ sq
    ++ "s tech stack\",\n    \"body\": \"Hi [name],\\n\\nI noticed your role as [title] at [company]. We"
    ++ sq
    ++ "ve helped similar companies reduce their infrastructure costs by 30%.\\n\\nWould you be open to a 15-minute conversation about your current challenges?\\n\\nBest regards,\\nSales Team\",\n    \"variants\": [\n        \x7b\n            \"subject\": \"Alternative subject line\",\n            \"body\": \"Alternative email body\"\n        \x7d,\n        \x7b\n            \"subject\": \"Another subject option\", \n            \"body\": \"Another email body option\"\n        \x7d\n    ]\n\x7d\n\nRespond only with the JSON object, no additional text."

/-- `f"\nAdditional Context: {context}" if context else ""`. -/
def contextSection (context : Option String) : String :=
  match context with
  | none => ""
  | some s => if s = "" then "" else "\nAdditional Context: " ++ s

/-- The outreach prompt before the final `.strip()`. -/
def outPromptCore (l : Lead) (context : Option String) : String :=
  outSeg1 ++ pyStr l.name ++ outSeg2 ++ pyStr l.title
    ++ outSeg3 ++ pyStr l.company ++ contextSection context
    ++ outSeg4

/-- `GrokClient._build_outreach_prompt`. -/
def buildOutreachPrompt (l : Lead) (context : Option String) : String :=
  pyStrip ("\n" ++ outPromptCore l context ++ "\n")

/-! ### Concrete leads used in the worked examples -/

/-- A lead with all seven fields filled, executive title, enterprise email
domain, valid 10-digit phone and a LinkedIn URL (the §8 worked example). -/
def leadC1 : Lead :=
  ⟨some "Sarah Johnson", some "sarah@microsoft.com", some "Microsoft",
    some "CEO", some "5551234567", some "https://linkedin.com/in/sarah",
    some "Interested in AI"⟩

/-- A lead carrying only a title. -/
def mkTitleLead (t : Option String) : Lead := ⟨none, none, none, t, none, none, none⟩

/-- A lead whose optional `title` is the empty string. -/
def leadEmptyTitle : Lead :=
  ⟨some "Ann", some "ann@acme.com", some "Acme", some "", none, none, none⟩

/-- A remote call that fails on attempts 0 and 1 and succeeds on
attempt 2. -/
def oracleFailTwice : ℕ → Except String String :=
  fun i => if i < 2 then .error ("boom " ++ natRepr i) else .ok "content"

/-- A remote call that fails on every attempt. -/
def oracleAlwaysFail : ℕ → Except String String :=
  fun i => .error ("boom " ++ natRepr i)

/-- A parsed response object missing only the `confidence` key. -/
def fieldsMissingConf : List (String × JVal) :=
  [("verdict", .str "qualified"), ("reasoning", .str "strong lead"),
    ("factors", .arr [.str "senior_title"])]

/-- A remote call that succeeds immediately with a response missing
`confidence`. -/
def oracleMissingConf : ℕ → Except String RawContent :=
  fun _ => .ok ⟨"resp", some fieldsMissingConf⟩

/-- Three labelled fixtures for the worked harness example. -/
def fixturesC6 : List Fixture :=
  [⟨"Lead A", "qualified", 70, 90⟩,
    ⟨"Lead B", "not_qualified", 60, 80⟩,
    ⟨"Lead C", "qualified", 75, 95⟩]

/-- Qualification outcomes where fixture 2 (index 1) raises a transport
error and the others succeed. -/
def oracleC6 : ℕ → Except PyErr QualificationResult :=
  fun i =>
    if i = 1 then .error (.grokError "TransportError: connection reset")
    else .ok ⟨"qualified", 80, .str "looks strong", .arr []⟩

end AiSdr

namespace AiSdr

/-! ### Helper lemmas -/

lemma roundHalfEven_intCast (n : ℤ) : roundHalfEven (n : ℚ) = n := by
  simp [roundHalfEven]

lemma round1_eq_intCast (q : ℚ) (n : ℤ) (h : q * 10 = (n : ℚ)) :
    round1 q = (n : ℚ) / 10 := by
  rw [round1, h, roundHalfEven_intCast]

lemma floor_le_roundHalfEven (q : ℚ) : ⌊q⌋ ≤ roundHalfEven q := by
  rw [roundHalfEven]
  split_ifs <;> omega

lemma roundHalfEven_le_ceil (q : ℚ) : roundHalfEven q ≤ ⌈q⌉ := by
  rw [roundHalfEven]
  have hfc := Int.floor_le_ceil q
  have hlt : (1 : ℚ) / 2 ≤ q - ⌊q⌋ → ⌊q⌋ + 1 ≤ ⌈q⌉ := by
    intro h
    have : (⌊q⌋ : ℚ) < q := by linarith
    have := Int.lt_ceil.mpr this
    omega
  split_ifs with h1 h2 h3
  · exact hfc
  · exact hlt (by linarith)
  · exact hfc
  · exact hlt (by linarith)

lemma round1_nonneg (q : ℚ) (h : 0 ≤ q) : 0 ≤ round1 q := by
  have h1 : (0 : ℤ) ≤ ⌊q * 10⌋ := Int.floor_nonneg.mpr (by positivity)
  have h2 := floor_le_roundHalfEven (q * 10)
  have : (0 : ℤ) ≤ roundHalfEven (q * 10) := le_trans h1 h2
  rw [round1]
  positivity

lemma round1_le_100 (q : ℚ) (h : q ≤ 100) : round1 q ≤ 100 := by
  have h1 : ⌈q * 10⌉ ≤ 1000 := Int.ceil_le.mpr (by push_cast; linarith)
  have h2 := roundHalfEven_le_ceil (q * 10)
  have h3 : roundHalfEven (q * 10) ≤ 1000 := le_trans h2 h1
  rw [round1]
  have : ((roundHalfEven (q * 10) : ℚ)) ≤ 1000 := by exact_mod_cast h3
  linarith

lemma DEFAULT_WEIGHTS_total : DEFAULT_WEIGHTS.total = 100 := by
  norm_num [DEFAULT_WEIGHTS, Weights.total]

lemma initWeights_none : initWeights none = DEFAULT_WEIGHTS := by
  simp only [initWeights, Option.getD_none]
  rw [if_pos DEFAULT_WEIGHTS_total]

lemma initWeights_some (w : Weights) :
    initWeights (some w) =
      ⟨w.data_completeness / w.total * 100, w.title_seniority / w.total * 100,
        w.company_size / w.total * 100, w.contact_quality / w.total * 100⟩ := by
  simp only [initWeights, Option.getD_some]
  split_ifs with h100
  · rw [h100]
    cases w
    simp only [Weights.mk.injEq]
    refine ⟨by ring, by ring, by ring, by ring⟩
  · rfl

lemma initWeights_some_total (w : Weights) (hne : w.total ≠ 0) :
    (initWeights (some w)).total = 100 := by
  rw [initWeights_some, Weights.total]
  show w.data_completeness / w.total * 100 + w.title_seniority / w.total * 100
    + w.company_size / w.total * 100 + w.contact_quality / w.total * 100 = 100
  have hsum : w.data_completeness / w.total * 100 + w.title_seniority / w.total * 100
      + w.company_size / w.total * 100 + w.contact_quality / w.total * 100
      = (w.data_completeness + w.title_seniority + w.company_size + w.contact_quality)
        / w.total * 100 := by ring
  rw [hsum]
  show w.total / w.total * 100 = 100
  rw [div_self hne]
  norm_num

lemma initWeights_total_100 (config : Option Weights)
    (hpos : 0 < (config.getD DEFAULT_WEIGHTS).total) :
    (initWeights config).total = 100 := by
  cases config with
  | none => rw [initWeights_none]; exact DEFAULT_WEIGHTS_total
  | some w => exact initWeights_some_total w (ne_of_gt (by simpa using hpos))

lemma initWeights_nonneg (config : Option Weights)
    (h1 : 0 ≤ (config.getD DEFAULT_WEIGHTS).data_completeness)
    (h2 : 0 ≤ (config.getD DEFAULT_WEIGHTS).title_seniority)
    (h3 : 0 ≤ (config.getD DEFAULT_WEIGHTS).company_size)
    (h4 : 0 ≤ (config.getD DEFAULT_WEIGHTS).contact_quality)
    (hpos : 0 < (config.getD DEFAULT_WEIGHTS).total) :
    0 ≤ (initWeights config).data_completeness
      ∧ 0 ≤ (initWeights config).title_seniority
      ∧ 0 ≤ (initWeights config).company_size
      ∧ 0 ≤ (initWeights config).contact_quality := by
  cases config with
  | none =>
    rw [initWeights_none]
    norm_num [DEFAULT_WEIGHTS]
  | some w =>
    simp only [Option.getD_some] at h1 h2 h3 h4 hpos
    rw [initWeights_some]
    refine ⟨?_, ?_, ?_, ?_⟩ <;> positivity

/-! ### Claim C1: total score = rounded weighted sum -/

/-- C1: for every lead and weight configuration, `calculate_score` returns
`total_score` equal to the sum over the four factors of
`(factor_score × factor_weight) / 100`, rounded to one decimal place; and
with the default weights and the worked-example lead (sub-scores
100/90/95/100) the total is 95.5. -/
theorem calculateScore_total_is_rounded_weighted_sum :
    (∀ (w : Weights) (l : Lead),
      (calculateScore w l).total_score =
        round1 ((scoreDataCompleteness w l).score * w.data_completeness / 100
          + (scoreTitleSeniority w l).score * w.title_seniority / 100
          + (scoreCompanySize w l).score * w.company_size / 100
          + (scoreContactQuality w l).score * w.contact_quality / 100))
    ∧ (scoreDataCompleteness DEFAULT_WEIGHTS leadC1).score = 100
    ∧ (scoreTitleSeniority DEFAULT_WEIGHTS leadC1).score = 90
    ∧ (scoreCompanySize DEFAULT_WEIGHTS leadC1).score = 95
    ∧ (scoreContactQuality DEFAULT_WEIGHTS leadC1).score = 100
    ∧ (calculateScore DEFAULT_WEIGHTS leadC1).total_score = 95.5 := by
  have hfill : filledFields leadC1 = 7 := by decide
  have h1 : (scoreDataCompleteness DEFAULT_WEIGHTS leadC1).score = 100 := by
    simp [scoreDataCompleteness, hfill]
  have h2 : (scoreTitleSeniority DEFAULT_WEIGHTS leadC1).score = 90 := by
    simp +decide [scoreTitleSeniority]
  have h3 : (scoreCompanySize DEFAULT_WEIGHTS leadC1).score = 95 := by
    simp +decide [scoreCompanySize]
  have h4 : (scoreContactQuality DEFAULT_WEIGHTS leadC1).score = 100 := by
    simp +decide [scoreContactQuality]
    norm_num
  refine ⟨fun w l => rfl, h1, h2, h3, h4, ?_⟩
  have htot : (calculateScore DEFAULT_WEIGHTS leadC1).total_score =
      round1 ((100 : ℚ) * 30 / 100 + 90 * 35 / 100 + 95 * 20 / 100 + 100 * 15 / 100) := by
    show round1 _ = _
    rw [h1, h2, h3, h4]
    rfl
  rw [htot, round1_eq_intCast _ 955 (by norm_num)]
  norm_num

/-! ### Claim C2: weight renormalization invariant -/

/-- C2: any supplied weight configuration with positive total is
renormalized at construction (each weight divided by the total, times
100) and then sums to exactly 100; the weights recorded by every later
`calculate_score` breakdown are those same normalized weights; with no
configuration, the default `{30, 35, 20, 15}` is used, which sums
to 100. -/
theorem initWeights_normalizes_to_100 :
    (∀ w : Weights, 0 < w.total →
      ((initWeights (some w)).data_completeness = w.data_completeness / w.total * 100
        ∧ (initWeights (some w)).title_seniority = w.title_seniority / w.total * 100
        ∧ (initWeights (some w)).company_size = w.company_size / w.total * 100
        ∧ (initWeights (some w)).contact_quality = w.contact_quality / w.total * 100)
      ∧ (initWeights (some w)).total = 100
      ∧ ∀ l : Lead,
          (calculateScore (initWeights (some w)) l).breakdown.map (fun e => e.weight)
            = [(initWeights (some w)).data_completeness,
                (initWeights (some w)).title_seniority,
                (initWeights (some w)).company_size,
                (initWeights (some w)).contact_quality])
    ∧ initWeights none = DEFAULT_WEIGHTS
    ∧ DEFAULT_WEIGHTS.total = 100 := by
  refine ⟨fun w hw => ?_, initWeights_none, DEFAULT_WEIGHTS_total⟩
  have hne : w.total ≠ 0 := ne_of_gt hw
  refine ⟨⟨?_, ?_, ?_, ?_⟩, initWeights_some_total w hne, fun l => rfl⟩ <;>
    rw [initWeights_some]

/-- Witness for C2 at the configuration `{1, 1, 1, 1}` (total 4). -/
theorem initWeights_normalizes_to_100_witness :
    0 < (Weights.mk 1 1 1 1).total
      ∧ (initWeights (some (Weights.mk 1 1 1 1))).total = 100 := by
  have hpos : 0 < (Weights.mk 1 1 1 1).total := by
    simp [Weights.total]
    norm_num
  exact ⟨hpos, ((initWeights_normalizes_to_100.1 (Weights.mk 1 1 1 1) hpos).2).1⟩

/-! ### Claim C7: title-seniority priority cascade -/

/-- C7: the title-seniority sub-score is 0 for a title empty after
trimming; else 90 on a case-insensitive substring match against the
executive vocabulary; else 70 for the senior vocabulary; else 40 for the
individual-contributor keywords; else 50 — first match wins, in that
order, by substring containment ("CEO" → 90, "" → 0, "Analyst" → 40,
"Plumber" → 50; "VPN Admin" → 90 because it merely contains "vp"). -/
theorem scoreTitleSeniority_priority_cascade :
    (∀ (w : Weights) (l : Lead),
      (pyStrip (orEmpty l.title) = "" →
        (scoreTitleSeniority w l).score = 0)
      ∧ (pyStrip (orEmpty l.title) ≠ "" →
          EXECUTIVE_TITLES.any (fun t => pyIn t (pyLower (orEmpty l.title))) = true →
          (scoreTitleSeniority w l).score = 90)
      ∧ (pyStrip (orEmpty l.title) ≠ "" →
          EXECUTIVE_TITLES.any (fun t => pyIn t (pyLower (orEmpty l.title))) = false →
          SENIOR_TITLES.any (fun t => pyIn t (pyLower (orEmpty l.title))) = true →
          (scoreTitleSeniority w l).score = 70)
      ∧ (pyStrip (orEmpty l.title) ≠ "" →
          EXECUTIVE_TITLES.any (fun t => pyIn t (pyLower (orEmpty l.title))) = false →
          SENIOR_TITLES.any (fun t => pyIn t (pyLower (orEmpty l.title))) = false →
          (["analyst", "coordinator", "specialist", "associate"].any
            (fun k => pyIn k (pyLower (orEmpty l.title)))) = true →
          (scoreTitleSeniority w l).score = 40)
      ∧ (pyStrip (orEmpty l.title) ≠ "" →
          EXECUTIVE_TITLES.any (fun t => pyIn t (pyLower (orEmpty l.title))) = false →
          SENIOR_TITLES.any (fun t => pyIn t (pyLower (orEmpty l.title))) = false →
          (["analyst", "coordinator", "specialist", "associate"].any
            (fun k => pyIn k (pyLower (orEmpty l.title)))) = false →
          (scoreTitleSeniority w l).score = 50))
    ∧ (scoreTitleSeniority DEFAULT_WEIGHTS (mkTitleLead (some "CEO"))).score = 90
    ∧ (scoreTitleSeniority DEFAULT_WEIGHTS (mkTitleLead (some ""))).score = 0
    ∧ (scoreTitleSeniority DEFAULT_WEIGHTS (mkTitleLead (some "Analyst"))).score = 40
    ∧ (scoreTitleSeniority DEFAULT_WEIGHTS (mkTitleLead (some "Plumber"))).score = 50
    ∧ (scoreTitleSeniority DEFAULT_WEIGHTS (mkTitleLead (some "VPN Admin"))).score = 90 := by
  refine ⟨fun w l => ⟨?_, ?_, ?_, ?_, ?_⟩, ?_, ?_, ?_, ?_, ?_⟩
  · intro h0
    simp [scoreTitleSeniority, h0]
  · intro h0 h1
    simp [scoreTitleSeniority, h0, h1]
  · intro h0 h1 h2
    simp [scoreTitleSeniority, h0, h1, h2]
  · intro h0 h1 h2 h3
    simp [scoreTitleSeniority, h0, h1, h2, h3]
  · intro h0 h1 h2 h3
    simp [scoreTitleSeniority, h0, h1, h2, h3]
  · simp +decide [scoreTitleSeniority]
  · simp +decide [scoreTitleSeniority]
  · simp +decide [scoreTitleSeniority]
  · simp +decide [scoreTitleSeniority]
  · simp +decide [scoreTitleSeniority]

/-- Witness for C7: the executive branch applied at the title "CEO". -/
theorem scoreTitleSeniority_priority_cascade_witness :
    pyStrip (orEmpty (mkTitleLead (some "CEO")).title) ≠ ""
      ∧ EXECUTIVE_TITLES.any
          (fun t => pyIn t (pyLower (orEmpty (mkTitleLead (some "CEO")).title))) = true
      ∧ (scoreTitleSeniority DEFAULT_WEIGHTS (mkTitleLead (some "CEO"))).score = 90 :=
  ⟨by decide, by decide,
    ((scoreTitleSeniority_priority_cascade.1 DEFAULT_WEIGHTS
      (mkTitleLead (some "CEO"))).2.1 (by decide) (by decide))⟩

/-! ### Claim C8: contact-quality additive score -/

/-- C8: for a lead whose email contains `@`, the contact-quality
sub-score is the capped-at-100 sum of an email part (40 enterprise / 35
non-consumer / 20 consumer), a phone part (30 for a North-American
pattern match after separator stripping, 20 for any other non-empty
phone, 0 if absent) and a LinkedIn part (30 when the URL contains
"linkedin.com"); the worked example scores exactly 100, and a zero total
yields the reasoning "Basic contact info only". -/
theorem scoreContactQuality_additive_capped :
    (∀ (w : Weights) (l : Lead), pyIn "@" (orEmpty l.email) = true →
      (scoreContactQuality w l).score =
        min ((if ENTERPRISE_DOMAINS.contains (emailDomain (orEmpty l.email)) then (40 : ℚ)
              else if CONSUMER_PROVIDERS.any
                  (fun c => pyIn c (emailDomain (orEmpty l.email))) = false then 35
              else 20)
          + (if orEmpty l.phone ≠ "" ∧ (pyStripList (orEmpty l.phone).data).length > 0 then
                (if phoneRegexMatch (phoneStripped (orEmpty l.phone)) then (30 : ℚ) else 20)
              else 0)
          + (if orEmpty l.linkedin_url ≠ ""
                ∧ pyIn "linkedin.com" (pyLower (orEmpty l.linkedin_url)) = true then (30 : ℚ)
              else 0)) 100)
    ∧ (scoreContactQuality DEFAULT_WEIGHTS leadC1).score = 100
    ∧ (∀ (w : Weights) (l : Lead), (scoreContactQuality w l).score = 0 →
        (scoreContactQuality w l).reasoning = "Basic contact info only") := by
  refine ⟨fun w l h => ?_, ?_, fun w l h => ?_⟩
  · simp only [scoreContactQuality, h, if_true]
    split_ifs <;> simp_all
  · simp +decide [scoreContactQuality]
    norm_num
  · simp only [scoreContactQuality] at h ⊢
    split_ifs at h ⊢ <;> simp_all [min_def] <;> split_ifs at h <;> norm_num at h

/-- Witness for C8: the additive formula applied at the worked-example
lead, and the zero-score branch applied at an all-empty lead. -/
theorem scoreContactQuality_additive_capped_witness :
    pyIn "@" (orEmpty leadC1.email) = true
      ∧ (scoreContactQuality DEFAULT_WEIGHTS leadC1).score =
          min ((40 : ℚ) + 30 + 30) 100 := by
  have h := scoreContactQuality_additive_capped.1 DEFAULT_WEIGHTS leadC1 (by decide)
  refine ⟨by decide, ?_⟩
  rw [h]
  simp +decide

/-! ### Claim C10: total score stays in [0, 100] -/

lemma scoreDataCompleteness_score_range (w : Weights) (l : Lead) :
    0 ≤ (scoreDataCompleteness w l).score ∧ (scoreDataCompleteness w l).score ≤ 100 := by
  have hle : filledFields l ≤ 7 := by
    have := List.countP_le_length (l := completenessFields l) (p := isFilled)
    simpa [completenessFields, filledFields] using this
  have hcast : ((filledFields l : ℚ)) ≤ 7 := by exact_mod_cast hle
  have hnn : (0 : ℚ) ≤ (filledFields l : ℚ) := by positivity
  constructor
  · show (0 : ℚ) ≤ (filledFields l : ℚ) / 7 * 100
    positivity
  · show (filledFields l : ℚ) / 7 * 100 ≤ 100
    nlinarith

lemma scoreTitleSeniority_score_range (w : Weights) (l : Lead) :
    0 ≤ (scoreTitleSeniority w l).score ∧ (scoreTitleSeniority w l).score ≤ 100 := by
  simp only [scoreTitleSeniority]
  split_ifs <;> norm_num

lemma scoreCompanySize_score_range (w : Weights) (l : Lead) :
    0 ≤ (scoreCompanySize w l).score ∧ (scoreCompanySize w l).score ≤ 100 := by
  simp only [scoreCompanySize]
  split_ifs <;> norm_num

lemma scoreContactQuality_score_range (w : Weights) (l : Lead) :
    0 ≤ (scoreContactQuality w l).score ∧ (scoreContactQuality w l).score ≤ 100 := by
  simp only [scoreContactQuality]
  constructor
  · refine le_min ?_ (by norm_num)
    split_ifs <;> norm_num
  · exact min_le_right _ _

/-- C10: for every lead and every non-negative weight configuration with
positive total (the default included), the service weights sum to 100,
every sub-score lies in [0, 100], and the rounded total score lies in
[0, 100]. -/
theorem calculateScore_total_in_0_100 (config : Option Weights) (l : Lead)
    (h1 : 0 ≤ (config.getD DEFAULT_WEIGHTS).data_completeness)
    (h2 : 0 ≤ (config.getD DEFAULT_WEIGHTS).title_seniority)
    (h3 : 0 ≤ (config.getD DEFAULT_WEIGHTS).company_size)
    (h4 : 0 ≤ (config.getD DEFAULT_WEIGHTS).contact_quality)
    (hpos : 0 < (config.getD DEFAULT_WEIGHTS).total) :
    (initWeights config).total = 100
      ∧ (0 ≤ (scoreDataCompleteness (initWeights config) l).score
          ∧ (scoreDataCompleteness (initWeights config) l).score ≤ 100)
      ∧ (0 ≤ (scoreTitleSeniority (initWeights config) l).score
          ∧ (scoreTitleSeniority (initWeights config) l).score ≤ 100)
      ∧ (0 ≤ (scoreCompanySize (initWeights config) l).score
          ∧ (scoreCompanySize (initWeights config) l).score ≤ 100)
      ∧ (0 ≤ (scoreContactQuality (initWeights config) l).score
          ∧ (scoreContactQuality (initWeights config) l).score ≤ 100)
      ∧ 0 ≤ (calculateScore (initWeights config) l).total_score
      ∧ (calculateScore (initWeights config) l).total_score ≤ 100 := by
  obtain ⟨w1, w2, w3, w4⟩ := initWeights_nonneg config h1 h2 h3 h4 hpos
  have htot := initWeights_total_100 config hpos
  obtain ⟨s1a, s1b⟩ := scoreDataCompleteness_score_range (initWeights config) l
  obtain ⟨s2a, s2b⟩ := scoreTitleSeniority_score_range (initWeights config) l
  obtain ⟨s3a, s3b⟩ := scoreCompanySize_score_range (initWeights config) l
  obtain ⟨s4a, s4b⟩ := scoreContactQuality_score_range (initWeights config) l
  have heq : (calculateScore (initWeights config) l).total_score =
      round1 ((scoreDataCompleteness (initWeights config) l).score
          * (initWeights config).data_completeness / 100
        + (scoreTitleSeniority (initWeights config) l).score
          * (initWeights config).title_seniority / 100
        + (scoreCompanySize (initWeights config) l).score
          * (initWeights config).company_size / 100
        + (scoreContactQuality (initWeights config) l).score
          * (initWeights config).contact_quality / 100) := rfl
  have hsumtot : (initWeights config).data_completeness + (initWeights config).title_seniority
      + (initWeights config).company_size + (initWeights config).contact_quality = 100 := htot
  have hlow : 0 ≤ (scoreDataCompleteness (initWeights config) l).score
      * (initWeights config).data_completeness / 100
      + (scoreTitleSeniority (initWeights config) l).score
        * (initWeights config).title_seniority / 100
      + (scoreCompanySize (initWeights config) l).score
        * (initWeights config).company_size / 100
      + (scoreContactQuality (initWeights config) l).score
        * (initWeights config).contact_quality / 100 := by
    have t1 : 0 ≤ (scoreDataCompleteness (initWeights config) l).score
        * (initWeights config).data_completeness / 100 := by positivity
    have t2 : 0 ≤ (scoreTitleSeniority (initWeights config) l).score
        * (initWeights config).title_seniority / 100 := by positivity
    have t3 : 0 ≤ (scoreCompanySize (initWeights config) l).score
        * (initWeights config).company_size / 100 := by positivity
    have t4 : 0 ≤ (scoreContactQuality (initWeights config) l).score
        * (initWeights config).contact_quality / 100 := by positivity
    linarith
  have hhigh : (scoreDataCompleteness (initWeights config) l).score
      * (initWeights config).data_completeness / 100
      + (scoreTitleSeniority (initWeights config) l).score
        * (initWeights config).title_seniority / 100
      + (scoreCompanySize (initWeights config) l).score
        * (initWeights config).company_size / 100
      + (scoreContactQuality (initWeights config) l).score
        * (initWeights config).contact_quality / 100 ≤ 100 := by
    have t1 : (scoreDataCompleteness (initWeights config) l).score
        * (initWeights config).data_completeness / 100
        ≤ (initWeights config).data_completeness := by nlinarith
    have t2 : (scoreTitleSeniority (initWeights config) l).score
        * (initWeights config).title_seniority / 100
        ≤ (initWeights config).title_seniority := by nlinarith
    have t3 : (scoreCompanySize (initWeights config) l).score
        * (initWeights config).company_size / 100
        ≤ (initWeights config).company_size := by nlinarith
    have t4 : (scoreContactQuality (initWeights config) l).score
        * (initWeights config).contact_quality / 100
        ≤ (initWeights config).contact_quality := by nlinarith
    linarith
  refine ⟨htot, ⟨s1a, s1b⟩, ⟨s2a, s2b⟩, ⟨s3a, s3b⟩, ⟨s4a, s4b⟩, ?_, ?_⟩
  · rw [heq]
    exact round1_nonneg _ hlow
  · rw [heq]
    exact round1_le_100 _ hhigh

/-- Witness for C10 at the default configuration and the worked-example
lead. -/
theorem calculateScore_total_in_0_100_witness :
    (0 ≤ ((none : Option Weights).getD DEFAULT_WEIGHTS).data_completeness
      ∧ 0 ≤ ((none : Option Weights).getD DEFAULT_WEIGHTS).title_seniority
      ∧ 0 ≤ ((none : Option Weights).getD DEFAULT_WEIGHTS).company_size
      ∧ 0 ≤ ((none : Option Weights).getD DEFAULT_WEIGHTS).contact_quality
      ∧ 0 < ((none : Option Weights).getD DEFAULT_WEIGHTS).total)
      ∧ 0 ≤ (calculateScore (initWeights none) leadC1).total_score
      ∧ (calculateScore (initWeights none) leadC1).total_score ≤ 100 := by
  have b1 : 0 ≤ ((none : Option Weights).getD DEFAULT_WEIGHTS).data_completeness := by
    norm_num [DEFAULT_WEIGHTS]
  have b2 : 0 ≤ ((none : Option Weights).getD DEFAULT_WEIGHTS).title_seniority := by
    norm_num [DEFAULT_WEIGHTS]
  have b3 : 0 ≤ ((none : Option Weights).getD DEFAULT_WEIGHTS).company_size := by
    norm_num [DEFAULT_WEIGHTS]
  have b4 : 0 ≤ ((none : Option Weights).getD DEFAULT_WEIGHTS).contact_quality := by
    norm_num [DEFAULT_WEIGHTS]
  have b5 : 0 < ((none : Option Weights).getD DEFAULT_WEIGHTS).total := by
    norm_num [DEFAULT_WEIGHTS, Weights.total]
  have h := calculateScore_total_in_0_100 none leadC1 b1 b2 b3 b4 b5
  exact ⟨⟨b1, b2, b3, b4, b5⟩, h.2.2.2.2.2.1, h.2.2.2.2.2.2⟩

/-! ### Claim C5: qualification never moves a lead backward -/

/-- C5: on a "qualified" verdict the router advances the stage to
"Qualified" exactly when the current stage index is below 1 (logging a
stage-change activity), and leaves it unchanged otherwise; the new stage
index is never below the old one ("Contacted" stays, "New" advances). -/
theorem qualificationStage_monotone :
    (∀ stage : String,
      (applyQualificationStage "qualified" stage).1 =
        (if stageIndex stage < 1 then "Qualified" else stage)
      ∧ ((applyQualificationStage "qualified" stage).2 = true ↔ stageIndex stage < 1)
      ∧ stageIndex stage ≤ stageIndex (applyQualificationStage "qualified" stage).1)
    ∧ (∀ verdict stage : String, verdict ≠ "qualified" →
        applyQualificationStage verdict stage = (stage, false))
    ∧ applyQualificationStage "qualified" "Contacted" = ("Contacted", false)
    ∧ applyQualificationStage "qualified" "New" = ("Qualified", true)
    ∧ stageIndex "Contacted" = 2 ∧ stageIndex "New" = 0 ∧ stageIndex "Qualified" = 1 := by
  refine ⟨fun stage => ⟨?_, ?_, ?_⟩, fun verdict stage h => ?_, by decide, by decide,
    by decide, by decide, by decide⟩
  · by_cases h : stageIndex stage < 1 <;> simp [applyQualificationStage, h]
  · by_cases h : stageIndex stage < 1 <;> simp [applyQualificationStage, h]
  · by_cases h : stageIndex stage < 1
    · have h0 : stageIndex stage = 0 := by omega
      simp [applyQualificationStage, h]
      rw [h0]
      exact Nat.zero_le _
    · simp [applyQualificationStage, h]
  · simp [applyQualificationStage, h]

/-- Witness for C5: a non-"qualified" verdict leaves the stage alone. -/
theorem qualificationStage_monotone_witness :
    ("not_qualified" : String) ≠ "qualified"
      ∧ applyQualificationStage "not_qualified" "New" = ("New", false) :=
  ⟨by decide, qualificationStage_monotone.2.1 "not_qualified" "New" (by decide)⟩

/-! ### Claim C3: exponential backoff in the retry loop -/

lemma retryLoop_range'_ok {α : Type} (oracle : ℕ → Except String α)
    (es : ℕ → String) (v : α) :
    ∀ (j s n : ℕ) (le : Option String), j < n →
      (∀ i, i < j → oracle (s + i) = .error (es (s + i))) →
      oracle (s + j) = .ok v →
      retryLoop oracle (List.range' s n) le =
        ⟨.ok v, (List.range' s j).map (fun a => 2 ^ a), j + 1⟩ := by
  intro j
  induction j with
  | zero =>
    intro s n le hn hfail hok
    cases n with
    | zero => omega
    | succ m =>
      simp only [List.range']
      rw [retryLoop]
      simp only [Nat.add_zero] at hok
      rw [hok]
      simp [List.range']
  | succ k ih =>
    intro s n le hn hfail hok
    cases n with
    | zero => omega
    | succ m =>
      cases m with
      | zero => omega
      | succ m2 =>
        have h0 : oracle s = .error (es s) := by
          have := hfail 0 (Nat.succ_pos k)
          simpa using this
        have hrec := ih (s + 1) (m2 + 1) (some (es s)) (by omega)
          (fun i hi => by
            have := hfail (i + 1) (by omega)
            simpa [Nat.add_assoc, Nat.add_comm 1 i] using this)
          (by
            have : s + 1 + k = s + (k + 1) := by omega
            rw [this]
            exact hok)
        simp only [List.range']
        rw [retryLoop, h0]
        dsimp only
        simp only [List.range'] at hrec
        rw [hrec]
        simp [List.range']

lemma retryLoop_range'_allFail {α : Type} (oracle : ℕ → Except String α)
    (es : ℕ → String) :
    ∀ (n s : ℕ) (le : Option String), 1 ≤ n →
      (∀ i, i < n → oracle (s + i) = .error (es (s + i))) →
      retryLoop oracle (List.range' s n) le =
        ⟨.error (some (es (s + (n - 1)))),
          (List.range' s (n - 1)).map (fun a => 2 ^ a), n⟩ := by
  intro n
  induction n with
  | zero => intro s le h; omega
  | succ m ih =>
    intro s le _ hfail
    have h0 : oracle s = .error (es s) := by
      have := hfail 0 (Nat.succ_pos m)
      simpa using this
    cases m with
    | zero =>
      simp only [List.range']
      rw [retryLoop, h0]
      simp
    | succ m2 =>
      have hrec := ih (s + 1) (some (es s)) (by omega)
        (fun i hi => by
          have := hfail (i + 1) (by omega)
          simpa [Nat.add_assoc, Nat.add_comm 1 i] using this)
      simp only [List.range']
      rw [retryLoop, h0]
      dsimp only
      simp only [List.range'] at hrec
      rw [hrec]
      have harg : s + 1 + (m2 + 1 - 1) = s + (m2 + 1 + 1 - 1) := by omega
      simp only [harg]
      simp [List.range']

/-- C3: a remote-call failure on attempt `k` (with attempts remaining) is
followed by a `2^k` sleep before the retry; an oracle failing strictly
before attempt `j < max_retries` and succeeding at `j` yields the success
after exactly the sleeps `2^0 … 2^(j-1)`; if all `max_retries` attempts
fail, a `GrokError` carrying the last underlying error is raised after
the sleeps `2^0 … 2^(max_retries-2)` (no sleep after the final failure).
With `max_retries = 3`: fail-fail-ok waits `[1, 2]` (total 3) and
returns the response; fail-fail-fail waits `[1, 2]` and raises with the
last error. -/
theorem callGrokWithRetry_backoff :
    (∀ (α : Type) (oracle : ℕ → Except String α) (es : ℕ → String) (v : α)
        (maxRetries j : ℕ), j < maxRetries →
      (∀ i, i < j → oracle i = .error (es i)) →
      oracle j = .ok v →
      callGrokWithRetry maxRetries oracle =
        ⟨.ok v, (List.range j).map (fun a => 2 ^ a), j + 1⟩)
    ∧ (∀ (α : Type) (oracle : ℕ → Except String α) (es : ℕ → String)
        (maxRetries : ℕ), 1 ≤ maxRetries →
      (∀ i, i < maxRetries → oracle i = .error (es i)) →
      callGrokWithRetry maxRetries oracle =
        ⟨.error (some (es (maxRetries - 1))),
          (List.range (maxRetries - 1)).map (fun a => 2 ^ a), maxRetries⟩)
    ∧ (∀ e : String, grokRetryMsg (some e) = "Max retries exceeded. Last error: " ++ e)
    ∧ callGrokWithRetry 3 oracleFailTwice = ⟨.ok "content", [1, 2], 3⟩
    ∧ ([1, 2] : List ℕ).sum = 3
    ∧ callGrokWithRetry 3 oracleAlwaysFail = ⟨.error (some "boom 2"), [1, 2], 3⟩ := by
  refine ⟨?_, ?_, fun e => rfl, rfl, rfl, rfl⟩
  · intro α oracle es v maxRetries j hj hfail hok
    rw [callGrokWithRetry, List.range_eq_range']
    have := retryLoop_range'_ok oracle es v j 0 maxRetries none hj
      (fun i hi => by simpa using hfail i hi) (by simpa using hok)
    rw [this, List.range_eq_range']
  · intro α oracle es maxRetries h1 hfail
    rw [callGrokWithRetry, List.range_eq_range']
    have := retryLoop_range'_allFail oracle es maxRetries 0 none h1
      (fun i hi => by simpa using hfail i hi)
    rw [this, List.range_eq_range']
    simp

/-- Witness for C3: the fail-fail-ok schedule at `max_retries = 3`. -/
theorem callGrokWithRetry_backoff_witness :
    (2 < 3 ∧ oracleFailTwice 2 = .ok "content")
      ∧ callGrokWithRetry 3 oracleFailTwice =
          ⟨.ok "content", (List.range 2).map (fun a => 2 ^ a), 3⟩ :=
  ⟨⟨by omega, rfl⟩,
    callGrokWithRetry_backoff.1 String oracleFailTwice
      (fun i => "boom " ++ natRepr i) "content" 3 2 (by omega)
      (fun i hi => by interval_cases i <;> rfl) rfl⟩

/-! ### Substring lemmas for `pyIn` -/

lemma pyInAux_eq_true_iff (n : List Char) : ∀ h : List Char,
    (pyInAux n h = true ↔ n <:+: h)
  | [] => by simp [pyInAux, List.isEmpty_iff]
  | a :: t => by
    rw [pyInAux]
    simp only [Bool.or_eq_true, List.isPrefixOf_iff_prefix, pyInAux_eq_true_iff n t]
    rw [List.infix_cons_iff]

lemma pyIn_eq_true_iff (n h : String) : pyIn n h = true ↔ n.data <:+: h.data :=
  pyInAux_eq_true_iff n.data h.data

lemma infix_of_append_mid {α : Type} {n M : List α} (P S : List α)
    (h : n <:+: M) : n <:+: P ++ (M ++ S) :=
  h.trans ⟨P, S, by simp⟩

lemma infix_joinComma {x : String} : ∀ {xs : List String}, x ∈ xs →
    x.data <:+: (joinComma xs).data := by
  intro xs
  induction xs with
  | nil => intro h; cases h
  | cons a t ih =>
    intro h
    cases h with
    | head =>
      cases t with
      | nil => exact List.infix_rfl
      | cons b t2 =>
        rw [joinComma]
        exact ⟨[], (", " ++ joinComma (b :: t2)).data, by simp⟩
    | tail _ hmem =>
      have hne : t ≠ [] := List.ne_nil_of_mem hmem
      cases t with
      | nil => exact absurd rfl hne
      | cons b t2 =>
        rw [joinComma]
        exact (ih hmem).trans ⟨(a ++ ", ").data, [], by simp⟩

/-- A string that occurs in `xs` occurs (with its quotes stripped) inside
the Python repr of `xs`. -/
lemma pyIn_of_mem_strListRepr {x : String} {xs : List String} (h : x ∈ xs) :
    pyIn x (pyStrListRepr xs) = true := by
  rw [pyIn_eq_true_iff, pyStrListRepr]
  have h1 : (sq ++ x ++ sq) ∈ xs.map (fun s => sq ++ s ++ sq) :=
    List.mem_map.mpr ⟨x, h, rfl⟩
  have h2 : x.data <:+: (sq ++ x ++ sq).data := ⟨sq.data, sq.data, by simp⟩
  have h3 := h2.trans (infix_joinComma h1)
  exact h3.trans ⟨['['], [']'], by simp⟩

lemma pyIn_append_left (n pre s : String) (h : pyIn n s = true) :
    pyIn n (pre ++ s) = true := by
  rw [pyIn_eq_true_iff] at h ⊢
  rw [String.data_append]
  exact h.trans ⟨pre.data, [], by simp⟩

/-! ### Claim C4: validation happens after the retry loop, never retried -/

/-- C4: a response returned by the first successful remote call is
validated after the retry loop has exited: the client performs exactly
one call and no sleep, whatever the validation outcome; a parsed object
missing `confidence` (the other fields present) yields the GrokError
naming `confidence`; non-JSON content yields the invalid-JSON error;
out-of-enum verdicts and out-of-range confidences yield errors naming
the value; generally, any response missing `confidence` produces, with
no sleep and a single call, an error message containing "confidence". -/
theorem qualifyLead_validates_after_retry :
    (∀ (oracle : ℕ → Except String RawContent) (maxRetries : ℕ) (c : RawContent),
      1 ≤ maxRetries → oracle 0 = .ok c →
      qualifyLead maxRetries oracle = (validateQualification c, [], 1))
    ∧ (∀ (raw : String) (fields : List (String × JVal)),
        hasField fields "verdict" = true → hasField fields "confidence" = false →
        hasField fields "reasoning" = true → hasField fields "factors" = true →
        validateQualification ⟨raw, some fields⟩ =
          .error ("Missing required fields in Grok response: " ++ pyStrListRepr ["confidence"]))
    ∧ pyIn "confidence" ("Missing required fields in Grok response: "
        ++ pyStrListRepr ["confidence"]) = true
    ∧ (∀ raw : String, validateQualification ⟨raw, none⟩ =
        .error ("Invalid JSON response from Grok: " ++ raw))
    ∧ validateQualification ⟨"", some [("verdict", .str "maybe"), ("confidence", .int 50),
        ("reasoning", .str "r"), ("factors", .arr [])]⟩ =
        .error ("Invalid verdict: maybe. Must be one of " ++ pyStrListRepr VALID_VERDICTS)
    ∧ validateQualification ⟨"", some [("verdict", .str "qualified"), ("confidence", .int 150),
        ("reasoning", .str "r"), ("factors", .arr [])]⟩ =
        .error ("Invalid confidence: 150. Must be integer between 0-100")
    ∧ (∀ (oracle : ℕ → Except String RawContent) (maxRetries : ℕ) (raw : String)
        (fields : List (String × JVal)),
        1 ≤ maxRetries → oracle 0 = .ok ⟨raw, some fields⟩ →
        hasField fields "confidence" = false →
        (qualifyLead maxRetries oracle).2.1 = []
          ∧ (qualifyLead maxRetries oracle).2.2 = 1
          ∧ ∃ msg, (qualifyLead maxRetries oracle).1 = .error msg
              ∧ pyIn "confidence" msg = true) := by
  have hfirst : ∀ (oracle : ℕ → Except String RawContent) (maxRetries : ℕ) (c : RawContent),
      1 ≤ maxRetries → oracle 0 = .ok c →
      qualifyLead maxRetries oracle = (validateQualification c, [], 1) := by
    intro oracle maxRetries c h1 h0
    cases maxRetries with
    | zero => omega
    | succ m =>
      rw [qualifyLead, callGrokWithRetry, List.range_eq_range']
      simp only [List.range']
      rw [retryLoop, h0]
  refine ⟨hfirst, ?_, by decide, fun raw => rfl, by rfl, by rfl, ?_⟩
  · intro raw fields hv hc hr hf
    rw [validateQualification]
    have hmiss : REQUIRED_QUALIFICATION_FIELDS.filter (fun f => !hasField fields f)
        = ["confidence"] := by
      simp [REQUIRED_QUALIFICATION_FIELDS, List.filter, hv, hc, hr, hf]
    simp only [hmiss]
    rw [if_pos (by simp)]
  · intro oracle maxRetries raw fields h1 h0 hc
    rw [hfirst oracle maxRetries ⟨raw, some fields⟩ h1 h0]
    have hmem : "confidence" ∈ REQUIRED_QUALIFICATION_FIELDS.filter
        (fun f => !hasField fields f) := by
      refine List.mem_filter.mpr ⟨by simp [REQUIRED_QUALIFICATION_FIELDS], by simp [hc]⟩
    have hne : REQUIRED_QUALIFICATION_FIELDS.filter (fun f => !hasField fields f) ≠ [] :=
      List.ne_nil_of_mem hmem
    refine ⟨rfl, rfl, ?_⟩
    rw [validateQualification]
    simp only []
    rw [if_pos hne]
    exact ⟨_, rfl, pyIn_append_left _ _ _ (pyIn_of_mem_strListRepr hmem)⟩

/-- Witness for C4: a fields list missing exactly `confidence`, behind an
oracle that succeeds on its first call with `max_retries = 3`. -/
theorem qualifyLead_validates_after_retry_witness :
    (oracleMissingConf 0 = .ok ⟨"resp", some fieldsMissingConf⟩
      ∧ hasField fieldsMissingConf "confidence" = false)
      ∧ (qualifyLead 3 oracleMissingConf).2.1 = []
      ∧ (qualifyLead 3 oracleMissingConf).2.2 = 1
      ∧ ∃ msg, (qualifyLead 3 oracleMissingConf).1 = .error msg
          ∧ pyIn "confidence" msg = true :=
  ⟨⟨rfl, by decide⟩,
    (qualifyLead_validates_after_retry.2.2.2.2.2.2 oracleMissingConf 3 "resp"
      fieldsMissingConf (by omega) rfl (by decide))⟩

/-! ### Claim C6: harness tolerates per-fixture failures, exact partition -/

lemma runEvaluation_lead_id (f : Fixture) (o : Except PyErr QualificationResult) :
    (runEvaluation f o).lead_id = f.name := by
  cases o with
  | ok q => rfl
  | error e => cases e <;> rfl

lemma runEvaluation_error_verdict (f : Fixture) (e : PyErr) :
    (runEvaluation f (.error e)).actual_verdict = "error" := by
  cases e <;> rfl

lemma runEvaluation_pass_no_error (f : Fixture) (o : Except PyErr QualificationResult)
    (h : (runEvaluation f o).overall_pass = true) :
    pyTruthyOpt (runEvaluation f o).error = false := by
  cases o with
  | ok q => rfl
  | error e => cases e <;> simp [runEvaluation] at h

lemma countP_three_partition (l : List EvalResult)
    (h : ∀ r ∈ l, r.overall_pass = true → pyTruthyOpt r.error = false) :
    l.countP (fun r => r.overall_pass)
      + l.countP (fun r => !r.overall_pass && !pyTruthyOpt r.error)
      + l.countP (fun r => pyTruthyOpt r.error) = l.length := by
  induction l with
  | nil => simp
  | cons a t ih =>
    have ha := h a (List.mem_cons_self a t)
    have ht := ih (fun r hr hp => h r (List.mem_cons_of_mem a hr) hp)
    simp only [List.countP_cons, List.length_cons]
    by_cases hp : a.overall_pass = true
    · have he := ha hp
      simp only [hp, he]
      simp
      omega
    · have hp' : a.overall_pass = false := by simpa using hp
      by_cases he : pyTruthyOpt a.error = true
      · simp only [hp', he]
        simp
        omega
      · have he' : pyTruthyOpt a.error = false := by simpa using he
        simp only [hp', he']
        simp
        omega

/-- C6: the harness evaluates every fixture in order (result `i` belongs
to fixture `i`), records a per-fixture exception as an "error" outcome
(`actual_verdict = "error"`) instead of aborting, reports
`total_tests` equal to the number of fixtures, and partitions every
fixture into exactly one of passed/failed/errored, so the three counts
sum to `total_tests`; with 3 fixtures of which the 2nd raises a
transport error, `total_tests = 3` and `error_tests = 1` with results in
fixture order. -/
theorem runAllEvaluations_complete_report :
    (∀ (fixtures : List Fixture) (oracle : ℕ → Except PyErr QualificationResult),
      (runAllEvaluations fixtures oracle).total_tests = fixtures.length
      ∧ (runAllEvaluations fixtures oracle).results.length = fixtures.length
      ∧ (runAllEvaluations fixtures oracle).results.map (fun r => r.lead_id)
          = fixtures.map (fun f => f.name)
      ∧ (∀ (i : ℕ) (e : PyErr), oracle i = .error e →
          ((runAllEvaluations fixtures oracle).results[i]?.map
            (fun r => r.actual_verdict)) = fixtures[i]?.map (fun _ => "error"))
      ∧ (runAllEvaluations fixtures oracle).passed_tests
          + (runAllEvaluations fixtures oracle).failed_tests
          + (runAllEvaluations fixtures oracle).error_tests
          = (runAllEvaluations fixtures oracle).total_tests)
    ∧ (runAllEvaluations fixturesC6 oracleC6).total_tests = 3
    ∧ (runAllEvaluations fixturesC6 oracleC6).error_tests = 1
    ∧ (runAllEvaluations fixturesC6 oracleC6).results.map (fun r => r.lead_id)
        = ["Lead A", "Lead B", "Lead C"]
    ∧ ((runAllEvaluations fixturesC6 oracleC6).results[1]?.map
        (fun r => r.actual_verdict)) = some "error" := by
  refine ⟨fun fixtures oracle => ?_, rfl, by decide, by decide, by decide⟩
  refine ⟨?_, ?_, ?_, ?_, ?_⟩
  · show (fixtures.enum.map _).length = _
    simp
  · show (fixtures.enum.map _).length = _
    simp
  · show (fixtures.enum.map _).map _ = _
    rw [List.map_map]
    have hfun : ((fun r : EvalResult => r.lead_id)
        ∘ fun p : ℕ × Fixture => runEvaluation p.2 (oracle p.1))
        = ((fun f : Fixture => f.name) ∘ Prod.snd) :=
      funext (fun p => runEvaluation_lead_id p.2 (oracle p.1))
    rw [hfun, ← List.map_map, List.enum_map_snd]
  · intro i e herr
    show ((fixtures.enum.map _)[i]?.map _) = _
    rw [List.getElem?_map, List.getElem?_enum]
    cases hfi : fixtures[i]? with
    | none => rfl
    | some f => simp [herr, runEvaluation_error_verdict]
  · show (List.countP _ _) + (List.countP _ _) + (List.countP _ _) = (List.length _)
    apply countP_three_partition
    intro r hr hp
    obtain ⟨p, _, hpr⟩ := List.mem_map.mp hr
    rw [← hpr] at hp ⊢
    exact runEvaluation_pass_no_error p.2 (oracle p.1) hp

/-- Witness for C6: fixture 2 of the worked example raises a transport
error and its result slot reads "error". -/
theorem runAllEvaluations_complete_report_witness :
    oracleC6 1 = .error (.grokError "TransportError: connection reset")
      ∧ ((runAllEvaluations fixturesC6 oracleC6).results[1]?.map
          (fun r => r.actual_verdict)) = fixturesC6[1]?.map (fun _ => "error") :=
  ⟨rfl, (runAllEvaluations_complete_report.1 fixturesC6 oracleC6).2.2.2.1 1
    (.grokError "TransportError: connection reset") rfl⟩

/-! ### Claim C9: placeholder rendering in the prompts -/

lemma pyStrip_wrap (s : String) (c d : Char)
    (hh : s.data.head? = some c) (hc : isPySpace c = false)
    (hl : s.data.getLast? = some d) (hd : isPySpace d = false) :
    pyStrip ("\n" ++ s ++ "\n") = s := by
  obtain ⟨t, ht⟩ : ∃ t, s.data = c :: t := by
    cases hds : s.data with
    | nil => rw [hds] at hh; simp at hh
    | cons x xs =>
      rw [hds] at hh
      simp at hh
      exact ⟨xs, by rw [hh]⟩
  obtain ⟨t2, ht2⟩ : ∃ t2, s.data.reverse = d :: t2 := by
    have hrev : s.data.reverse.head? = some d := by
      rw [List.head?_reverse]
      exact hl
    cases hds : s.data.reverse with
    | nil => rw [hds] at hrev; simp at hrev
    | cons x xs =>
      rw [hds] at hrev
      simp at hrev
      exact ⟨xs, by rw [hrev]⟩
  have hstrip : pyStripList ("\n" ++ s ++ "\n").data = s.data := by
    have hdata : ("\n" ++ s ++ "\n").data = '\n' :: (s.data ++ ['\n']) := by simp
    have e1 : List.dropWhile isPySpace ('\n' :: (s.data ++ ['\n'])) = s.data ++ ['\n'] := by
      rw [List.dropWhile_cons, if_pos (show isPySpace '\n' = true from rfl), ht,
        List.cons_append, List.dropWhile_cons, if_neg (by simp [hc]), ← List.cons_append,
        ← ht]
    have e3 : (s.data ++ ['\n']).reverse = '\n' :: s.data.reverse := by simp
    have e4 : List.dropWhile isPySpace ('\n' :: s.data.reverse) = s.data.reverse := by
      rw [List.dropWhile_cons, if_pos (show isPySpace '\n' = true from rfl), ht2,
        List.dropWhile_cons, if_neg (by simp [hd]), ← ht2]
    rw [hdata, pyStripList, e1, e3, e4, List.reverse_reverse]
  cases s with
  | mk l => exact congrArg String.mk (by simpa using hstrip)

lemma qualPromptCore_head (l : Lead) : (qualPromptCore l).data.head? = some 'Y' := by
  have h1 : qualSeg1.data.head? = some 'Y' := rfl
  simp [qualPromptCore, List.head?_append, h1]

set_option maxRecDepth 40000 in
lemma qualPromptCore_last (l : Lead) : (qualPromptCore l).data.getLast? = some '.' := by
  have hflat : (qualPromptCore l).data =
      (qualSeg1.data ++ (pyStr l.name).data ++ qualSeg2.data ++ (pyStr l.title).data
        ++ qualSeg3.data ++ (pyStr l.company).data ++ qualSeg4.data ++ (pyStr l.email).data
        ++ qualSeg5.data ++ (renderTruthy l.phone "Not provided").data
        ++ qualSeg6.data ++ (renderTruthy l.linkedin_url "Not provided").data
        ++ qualSeg7.data ++ (renderTruthy l.notes "None").data) ++ qualSeg8.data := by
    simp only [qualPromptCore, String.data_append]
  rw [hflat, List.getLast?_append_of_ne_nil _ (by decide)]
  decide

lemma buildQualificationPrompt_eq (l : Lead) :
    buildQualificationPrompt l = qualPromptCore l :=
  pyStrip_wrap (qualPromptCore l) 'Y' '.' (qualPromptCore_head l) rfl
    (qualPromptCore_last l) rfl

lemma outPromptCore_head (l : Lead) (context : Option String) :
    (outPromptCore l context).data.head? = some 'Y' := by
  have h1 : outSeg1.data.head? = some 'Y' := rfl
  simp [outPromptCore, List.head?_append, h1]

set_option maxRecDepth 40000 in
lemma outPromptCore_last (l : Lead) (context : Option String) :
    (outPromptCore l context).data.getLast? = some '.' := by
  have hflat : (outPromptCore l context).data =
      (outSeg1.data ++ (pyStr l.name).data ++ outSeg2.data ++ (pyStr l.title).data
        ++ outSeg3.data ++ (pyStr l.company).data ++ (contextSection context).data)
        ++ outSeg4.data := by
    simp only [outPromptCore, String.data_append]
  rw [hflat, List.getLast?_append_of_ne_nil _ (by decide)]
  decide

lemma buildOutreachPrompt_eq (l : Lead) (context : Option String) :
    buildOutreachPrompt l context = outPromptCore l context :=
  pyStrip_wrap (outPromptCore l context) 'Y' '.' (outPromptCore_head l context) rfl
    (outPromptCore_last l context) rfl

lemma pyIn_qualPrompt_mid (l : Lead) (needle : String) (P M S : List Char)
    (hM : needle.data <:+: M)
    (hsplit : (qualPromptCore l).data = P ++ (M ++ S)) :
    pyIn needle (buildQualificationPrompt l) = true := by
  rw [buildQualificationPrompt_eq, pyIn_eq_true_iff, hsplit]
  exact infix_of_append_mid P S hM

lemma pyIn_outPrompt_mid (l : Lead) (context : Option String) (needle : String)
    (P M S : List Char) (hM : needle.data <:+: M)
    (hsplit : (outPromptCore l context).data = P ++ (M ++ S)) :
    pyIn needle (buildOutreachPrompt l context) = true := by
  rw [buildOutreachPrompt_eq, pyIn_eq_true_iff, hsplit]
  exact infix_of_append_mid P S hM

set_option maxRecDepth 100000 in
/-- C9 (amended): in the qualification prompt the truthiness-rendered
fields show explicit placeholders when `None` or empty — phone and
LinkedIn render "Not provided", notes renders "None" — while the
directly interpolated fields (name, title, company, email) go through
Python `str`, so a `None` value renders as "None"; all seven field
labels appear for every lead. The outreach prompt has only Name, Title
and Company lines (no Email/Phone/LinkedIn/Notes lines); its three
fields also render a `None` value as "None", with all three labels
always present. However, an empty-string optional field that is
interpolated directly (e.g. the title) renders as empty text, not as a
placeholder. -/
theorem prompts_placeholder_rendering :
    (∀ l : Lead, l.name = none →
      pyIn "- Name: None\n" (buildQualificationPrompt l) = true)
    ∧ (∀ l : Lead, l.title = none →
      pyIn "- Title: None\n" (buildQualificationPrompt l) = true)
    ∧ (∀ l : Lead, l.company = none →
      pyIn "- Company: None\n" (buildQualificationPrompt l) = true)
    ∧ (∀ l : Lead, l.email = none →
      pyIn "- Email: None\n" (buildQualificationPrompt l) = true)
    ∧ (∀ l : Lead, l.phone = none ∨ l.phone = some "" →
      pyIn "- Phone: Not provided\n" (buildQualificationPrompt l) = true)
    ∧ (∀ l : Lead, l.linkedin_url = none ∨ l.linkedin_url = some "" →
      pyIn "- LinkedIn: Not provided\n" (buildQualificationPrompt l) = true)
    ∧ (∀ l : Lead, l.notes = none ∨ l.notes = some "" →
      pyIn "- Notes: None\n" (buildQualificationPrompt l) = true)
    ∧ (∀ l : Lead,
        pyIn "- Name: " (buildQualificationPrompt l) = true
        ∧ pyIn "- Title: " (buildQualificationPrompt l) = true
        ∧ pyIn "- Company: " (buildQualificationPrompt l) = true
        ∧ pyIn "- Email: " (buildQualificationPrompt l) = true
        ∧ pyIn "- Phone: " (buildQualificationPrompt l) = true
        ∧ pyIn "- LinkedIn: " (buildQualificationPrompt l) = true
        ∧ pyIn "- Notes: " (buildQualificationPrompt l) = true)
    ∧ (∀ (l : Lead) (context : Option String), l.name = none →
      pyIn "- Name: None\n" (buildOutreachPrompt l context) = true)
    ∧ (∀ (l : Lead) (context : Option String), l.title = none →
      pyIn "- Title: None\n" (buildOutreachPrompt l context) = true)
    ∧ (∀ (l : Lead) (context : Option String), l.company = none →
      pyIn "- Company: None" (buildOutreachPrompt l context) = true)
    ∧ (∀ (l : Lead) (context : Option String),
        pyIn "- Name: " (buildOutreachPrompt l context) = true
        ∧ pyIn "- Title: " (buildOutreachPrompt l context) = true
        ∧ pyIn "- Company: " (buildOutreachPrompt l context) = true)
    ∧ (pyIn "- Email: " (buildOutreachPrompt (mkTitleLead none) none) = false
        ∧ pyIn "- Phone: " (buildOutreachPrompt (mkTitleLead none) none) = false
        ∧ pyIn "- LinkedIn: " (buildOutreachPrompt (mkTitleLead none) none) = false
        ∧ pyIn "- Notes: " (buildOutreachPrompt (mkTitleLead none) none) = false)
    ∧ (∀ l : Lead, l.title = some "" →
      pyIn "- Title: \n- Company: " (buildQualificationPrompt l) = true) := by
  refine ⟨fun l h => ?_, fun l h => ?_, fun l h => ?_, fun l h => ?_, fun l h => ?_,
    fun l h => ?_, fun l h => ?_, fun l => ⟨?_, ?_, ?_, ?_, ?_, ?_, ?_⟩,
    fun l context h => ?_, fun l context h => ?_, fun l context h => ?_,
    fun l context => ⟨?_, ?_, ?_⟩, by decide, fun l h => ?_⟩
  · have hr : pyStr l.name = "None" := by rw [h]; rfl
    exact pyIn_qualPrompt_mid l _
      ([] : List Char)
      (qualSeg1.data ++ (("None" : String).data ++ qualSeg2.data))
      ((pyStr l.title).data ++ (qualSeg3.data ++ ((pyStr l.company).data
        ++ (qualSeg4.data ++ ((pyStr l.email).data
        ++ (qualSeg5.data ++ ((renderTruthy l.phone "Not provided").data
        ++ (qualSeg6.data ++ ((renderTruthy l.linkedin_url "Not provided").data
        ++ (qualSeg7.data ++ ((renderTruthy l.notes "None").data ++ qualSeg8.data)))))))))))
      (by decide)
      (by simp [qualPromptCore, hr])
  · have hr : pyStr l.title = "None" := by rw [h]; rfl
    exact pyIn_qualPrompt_mid l _
      (qualSeg1.data ++ (pyStr l.name).data)
      (qualSeg2.data ++ (("None" : String).data ++ qualSeg3.data))
      ((pyStr l.company).data ++ (qualSeg4.data ++ ((pyStr l.email).data
        ++ (qualSeg5.data ++ ((renderTruthy l.phone "Not provided").data
        ++ (qualSeg6.data ++ ((renderTruthy l.linkedin_url "Not provided").data
        ++ (qualSeg7.data ++ ((renderTruthy l.notes "None").data ++ qualSeg8.data)))))))))
      (by decide)
      (by simp [qualPromptCore, hr])
  · have hr : pyStr l.company = "None" := by rw [h]; rfl
    exact pyIn_qualPrompt_mid l _
      (qualSeg1.data ++ ((pyStr l.name).data ++ (qualSeg2.data ++ (pyStr l.title).data)))
      (qualSeg3.data ++ (("None" : String).data ++ qualSeg4.data))
      ((pyStr l.email).data
        ++ (qualSeg5.data ++ ((renderTruthy l.phone "Not provided").data
        ++ (qualSeg6.data ++ ((renderTruthy l.linkedin_url "Not provided").data
        ++ (qualSeg7.data ++ ((renderTruthy l.notes "None").data ++ qualSeg8.data)))))))
      (by decide)
      (by simp [qualPromptCore, hr])
  · have hr : pyStr l.email = "None" := by rw [h]; rfl
    exact pyIn_qualPrompt_mid l _
      (qualSeg1.data ++ ((pyStr l.name).data ++ (qualSeg2.data ++ ((pyStr l.title).data
        ++ (qualSeg3.data ++ (pyStr l.company).data)))))
      (qualSeg4.data ++ (("None" : String).data ++ qualSeg5.data))
      ((renderTruthy l.phone "Not provided").data
        ++ (qualSeg6.data ++ ((renderTruthy l.linkedin_url "Not provided").data
        ++ (qualSeg7.data ++ ((renderTruthy l.notes "None").data ++ qualSeg8.data)))))
      (by decide)
      (by simp [qualPromptCore, hr])
  · have hr : renderTruthy l.phone "Not provided" = "Not provided" := by
      rcases h with h | h <;> simp [renderTruthy, h]
    exact pyIn_qualPrompt_mid l _
      (qualSeg1.data ++ ((pyStr l.name).data ++ (qualSeg2.data ++ ((pyStr l.title).data
        ++ (qualSeg3.data ++ ((pyStr l.company).data
        ++ (qualSeg4.data ++ (pyStr l.email).data)))))))
      (qualSeg5.data ++ (("Not provided" : String).data ++ qualSeg6.data))
      ((renderTruthy l.linkedin_url "Not provided").data
        ++ (qualSeg7.data ++ ((renderTruthy l.notes "None").data ++ qualSeg8.data)))
      (by decide)
      (by simp [qualPromptCore, hr])
  · have hr : renderTruthy l.linkedin_url "Not provided" = "Not provided" := by
      rcases h with h | h <;> simp [renderTruthy, h]
    exact pyIn_qualPrompt_mid l _
      (qualSeg1.data ++ ((pyStr l.name).data ++ (qualSeg2.data ++ ((pyStr l.title).data
        ++ (qualSeg3.data ++ ((pyStr l.company).data ++ (qualSeg4.data
        ++ ((pyStr l.email).data ++ (qualSeg5.data
        ++ (renderTruthy l.phone "Not provided").data)))))))))
      (qualSeg6.data ++ (("Not provided" : String).data ++ qualSeg7.data))
      ((renderTruthy l.notes "None").data ++ qualSeg8.data)
      (by decide)
      (by simp [qualPromptCore, hr])
  · have hr : renderTruthy l.notes "None" = "None" := by
      rcases h with h | h <;> simp [renderTruthy, h]
    exact pyIn_qualPrompt_mid l _
      (qualSeg1.data ++ ((pyStr l.name).data ++ (qualSeg2.data ++ ((pyStr l.title).data
        ++ (qualSeg3.data ++ ((pyStr l.company).data ++ (qualSeg4.data
        ++ ((pyStr l.email).data ++ (qualSeg5.data
        ++ ((renderTruthy l.phone "Not provided").data ++ (qualSeg6.data
        ++ (renderTruthy l.linkedin_url "Not provided").data)))))))))))
      (qualSeg7.data ++ (("None" : String).data ++ qualSeg8.data))
      ([] : List Char)
      (by decide)
      (by simp [qualPromptCore, hr])
  · exact pyIn_qualPrompt_mid l _
      ([] : List Char)
      qualSeg1.data
      ((pyStr l.name).data ++ (qualSeg2.data ++ ((pyStr l.title).data
        ++ (qualSeg3.data ++ ((pyStr l.company).data ++ (qualSeg4.data
        ++ ((pyStr l.email).data ++ (qualSeg5.data
        ++ ((renderTruthy l.phone "Not provided").data ++ (qualSeg6.data
        ++ ((renderTruthy l.linkedin_url "Not provided").data ++ (qualSeg7.data
        ++ ((renderTruthy l.notes "None").data ++ qualSeg8.data)))))))))))))
      (by decide)
      (by simp [qualPromptCore])
  · exact pyIn_qualPrompt_mid l _
      (qualSeg1.data ++ (pyStr l.name).data)
      qualSeg2.data
      ((pyStr l.title).data
        ++ (qualSeg3.data ++ ((pyStr l.company).data ++ (qualSeg4.data
        ++ ((pyStr l.email).data ++ (qualSeg5.data
        ++ ((renderTruthy l.phone "Not provided").data ++ (qualSeg6.data
        ++ ((renderTruthy l.linkedin_url "Not provided").data ++ (qualSeg7.data
        ++ ((renderTruthy l.notes "None").data ++ qualSeg8.data)))))))))))
      (by decide)
      (by simp [qualPromptCore])
  · exact pyIn_qualPrompt_mid l _
      (qualSeg1.data ++ ((pyStr l.name).data ++ (qualSeg2.data ++ (pyStr l.title).data)))
      qualSeg3.data
      ((pyStr l.company).data ++ (qualSeg4.data
        ++ ((pyStr l.email).data ++ (qualSeg5.data
        ++ ((renderTruthy l.phone "Not provided").data ++ (qualSeg6.data
        ++ ((renderTruthy l.linkedin_url "Not provided").data ++ (qualSeg7.data
        ++ ((renderTruthy l.notes "None").data ++ qualSeg8.data)))))))))
      (by decide)
      (by simp [qualPromptCore])
  · exact pyIn_qualPrompt_mid l _
      (qualSeg1.data ++ ((pyStr l.name).data ++ (qualSeg2.data ++ ((pyStr l.title).data
        ++ (qualSeg3.data ++ (pyStr l.company).data)))))
      qualSeg4.data
      ((pyStr l.email).data ++ (qualSeg5.data
        ++ ((renderTruthy l.phone "Not provided").data ++ (qualSeg6.data
        ++ ((renderTruthy l.linkedin_url "Not provided").data ++ (qualSeg7.data
        ++ ((renderTruthy l.notes "None").data ++ qualSeg8.data)))))))
      (by decide)
      (by simp [qualPromptCore])
  · exact pyIn_qualPrompt_mid l _
      (qualSeg1.data ++ ((pyStr l.name).data ++ (qualSeg2.data ++ ((pyStr l.title).data
        ++ (qualSeg3.data ++ ((pyStr l.company).data
        ++ (qualSeg4.data ++ (pyStr l.email).data)))))))
      qualSeg5.data
      ((renderTruthy l.phone "Not provided").data
        ++ (qualSeg6.data ++ ((renderTruthy l.linkedin_url "Not provided").data
        ++ (qualSeg7.data ++ ((renderTruthy l.notes "None").data ++ qualSeg8.data)))))
      (by decide)
      (by simp [qualPromptCore])
  · exact pyIn_qualPrompt_mid l _
      (qualSeg1.data ++ ((pyStr l.name).data ++ (qualSeg2.data ++ ((pyStr l.title).data
        ++ (qualSeg3.data ++ ((pyStr l.company).data ++ (qualSeg4.data
        ++ ((pyStr l.email).data ++ (qualSeg5.data
        ++ (renderTruthy l.phone "Not provided").data)))))))))
      qualSeg6.data
      ((renderTruthy l.linkedin_url "Not provided").data ++ (qualSeg7.data
        ++ ((renderTruthy l.notes "None").data ++ qualSeg8.data)))
      (by decide)
      (by simp [qualPromptCore])
  · exact pyIn_qualPrompt_mid l _
      (qualSeg1.data ++ ((pyStr l.name).data ++ (qualSeg2.data ++ ((pyStr l.title).data
        ++ (qualSeg3.data ++ ((pyStr l.company).data ++ (qualSeg4.data
        ++ ((pyStr l.email).data ++ (qualSeg5.data
        ++ ((renderTruthy l.phone "Not provided").data ++ (qualSeg6.data
        ++ (renderTruthy l.linkedin_url "Not provided").data)))))))))))
      qualSeg7.data
      ((renderTruthy l.notes "None").data ++ qualSeg8.data)
      (by decide)
      (by simp [qualPromptCore])
  · have hr : pyStr l.name = "None" := by rw [h]; rfl
    exact pyIn_outPrompt_mid l context _
      ([] : List Char)
      (outSeg1.data ++ (("None" : String).data ++ outSeg2.data))
      ((pyStr l.title).data ++ (outSeg3.data ++ ((pyStr l.company).data
        ++ ((contextSection context).data ++ outSeg4.data))))
      (by decide)
      (by simp [outPromptCore, hr])
  · have hr : pyStr l.title = "None" := by rw [h]; rfl
    exact pyIn_outPrompt_mid l context _
      (outSeg1.data ++ (pyStr l.name).data)
      (outSeg2.data ++ (("None" : String).data ++ outSeg3.data))
      ((pyStr l.company).data ++ ((contextSection context).data ++ outSeg4.data))
      (by decide)
      (by simp [outPromptCore, hr])
  · have hr : pyStr l.company = "None" := by rw [h]; rfl
    exact pyIn_outPrompt_mid l context _
      (outSeg1.data ++ ((pyStr l.name).data ++ (outSeg2.data ++ (pyStr l.title).data)))
      (outSeg3.data ++ ("None" : String).data)
      ((contextSection context).data ++ outSeg4.data)
      (by decide)
      (by simp [outPromptCore, hr])
  · exact pyIn_outPrompt_mid l context _
      ([] : List Char)
      outSeg1.data
      ((pyStr l.name).data ++ (outSeg2.data ++ ((pyStr l.title).data
        ++ (outSeg3.data ++ ((pyStr l.company).data
        ++ ((contextSection context).data ++ outSeg4.data))))))
      (by decide)
      (by simp [outPromptCore])
  · exact pyIn_outPrompt_mid l context _
      (outSeg1.data ++ (pyStr l.name).data)
      outSeg2.data
      ((pyStr l.title).data ++ (outSeg3.data ++ ((pyStr l.company).data
        ++ ((contextSection context).data ++ outSeg4.data))))
      (by decide)
      (by simp [outPromptCore])
  · exact pyIn_outPrompt_mid l context _
      (outSeg1.data ++ ((pyStr l.name).data ++ (outSeg2.data ++ (pyStr l.title).data)))
      outSeg3.data
      ((pyStr l.company).data ++ ((contextSection context).data ++ outSeg4.data))
      (by decide)
      (by simp [outPromptCore])
  · have hr : pyStr l.title = "" := by rw [h]; rfl
    exact pyIn_qualPrompt_mid l _
      (qualSeg1.data ++ (pyStr l.name).data)
      (qualSeg2.data ++ (([] : List Char) ++ qualSeg3.data))
      ((pyStr l.company).data ++ (qualSeg4.data ++ ((pyStr l.email).data
        ++ (qualSeg5.data ++ ((renderTruthy l.phone "Not provided").data
        ++ (qualSeg6.data ++ ((renderTruthy l.linkedin_url "Not provided").data
        ++ (qualSeg7.data ++ ((renderTruthy l.notes "None").data ++ qualSeg8.data)))))))))
      (by decide)
      (by simp [qualPromptCore, hr])

/-- Witness for C9 (amended): the phone placeholder at a concrete lead
with no phone. -/
theorem prompts_placeholder_rendering_witness :
    ((mkTitleLead (some "CTO")).phone = none ∨ (mkTitleLead (some "CTO")).phone = some "")
      ∧ pyIn "- Phone: Not provided\n"
          (buildQualificationPrompt (mkTitleLead (some "CTO"))) = true :=
  ⟨Or.inl rfl,
    prompts_placeholder_rendering.2.2.2.2.1 (mkTitleLead (some "CTO")) (Or.inl rfl)⟩

set_option maxRecDepth 40000 in
/-- Counterexample to C9 as stated: for a lead whose optional title is
the empty string, the qualification prompt interpolates the missing
title as empty text — the Title line reads "- Title: " — rather than as
a "Not provided"/"None" placeholder. -/
theorem buildQualificationPrompt_empty_title_not_placeholder :
    leadEmptyTitle.title = some ""
      ∧ pyIn "- Title: \n- Company: " (buildQualificationPrompt leadEmptyTitle) = true
      ∧ pyIn "- Title: None" (buildQualificationPrompt leadEmptyTitle) = false
      ∧ pyIn "- Title: Not provided" (buildQualificationPrompt leadEmptyTitle) = false := by
  refine ⟨rfl, ?_, ?_, ?_⟩ <;> decide

end AiSdr
